import Mathlib

/-!
Shallow embedding of the strateplan-cli data layer
(`strateplan/db.py`, `strateplan/models/*.py`, `strateplan/services/*.py`,
`strateplan/utils/validator.py`).

Modelling conventions:
* SQLite REAL columns are modelled as `ℚ` (the layer only adds, divides and
  compares them; no float rounding is relevant to the stated properties).
* Date columns are the literal `String`s the code stores.
* The four tables are lists of row structures plus per-table
  AUTOINCREMENT counters.
* `(result, error_message)` pairs become `Option`-valued results with an
  inductive error type abstracting the Thai message strings.
* Timestamp columns (`created_at` / `updated_at`) are irrelevant to every
  property below except the entity/dict round trip, so they appear in the
  entity structures but are omitted from table rows.
-/

/-- Status string constants of `Initiative` (`initiative.py`). -/
def STATUS_NOT_STARTED : String := "ยังไม่เริ่ม"

def STATUS_IN_PROGRESS : String := "กำลังดำเนินการ"

def STATUS_COMPLETED : String := "เสร็จสิ้น"

def STATUS_DELAYED : String := "ล่าช้า"

def STATUS_CANCELLED : String := "ยกเลิก"

/-- `Initiative.VALID_STATUSES`. -/
def VALID_STATUSES : List String :=
  [STATUS_NOT_STARTED, STATUS_IN_PROGRESS, STATUS_COMPLETED, STATUS_DELAYED, STATUS_CANCELLED]

/-- Python `status or STATUS_NOT_STARTED` in `Initiative.__init__`:
`None` and the empty string are falsy and replaced by the default. -/
def statusOrDefault : Option String → String
  | none => STATUS_NOT_STARTED
  | some s => if s = "" then STATUS_NOT_STARTED else s

/-! ## Validators (`utils/validator.py`) -/

/-- `validate_text` (`max_length` is never supplied by the services, so it
is omitted): `None` or empty text is accepted iff `allow_none`; otherwise
the text must reach `min_length`. Returns the `is_valid` component. -/
def validate_text (text : Option String) (min_length : Nat) (allow_none : Bool) : Bool :=
  match text with
  | none => allow_none
  | some s =>
    if s = "" then allow_none
    else if 0 < min_length ∧ s.length < min_length then false
    else true

/-- `validate_numeric` on an already-numeric value (the `float()` conversion
cannot fail for the numeric inputs the services pass). Returns `is_valid`. -/
def validate_numeric (value : Option ℚ) (min_value max_value : Option ℚ)
    (allow_none : Bool) : Bool :=
  match value with
  | none => allow_none
  | some v =>
    (match min_value with | none => true | some m => decide (m ≤ v)) &&
    (match max_value with | none => true | some m => decide (v ≤ m))

/-- `validate_in_list`: membership in a finite list, `None` accepted iff
`allow_none`. Returns `is_valid`. -/
def validate_in_list (value : Option String) (valid_values : List String)
    (allow_none : Bool) : Bool :=
  match value with
  | none => allow_none
  | some v => valid_values.contains v

/-! ### Date validation (`validate_date` / `validate_date_range`)

`validate_date` checks the regex `^\d{4}-\d{2}-\d{2}$` and then
`datetime.strptime(date_str, "%Y-%m-%d")`, i.e. that the digits form a real
calendar date (month 1–12, day within the month, leap years; `datetime`
years start at 1). `validate_date_range` compares the parsed dates, which
for `datetime` objects is lexicographic on (year, month, day). -/

/-- Numeric value of a decimal digit character. -/
def digitVal (c : Char) : Nat := c.toNat - 48

/-- Parse a `YYYY-MM-DD`-shaped string into (year, month, day); `none` if
the string does not match the regex `^\d{4}-\d{2}-\d{2}$`. -/
def parseDate (s : String) : Option (Nat × Nat × Nat) :=
  match s.toList with
  | [y1, y2, y3, y4, c1, m1, m2, c2, d1, d2] =>
    if y1.isDigit && y2.isDigit && y3.isDigit && y4.isDigit &&
       c1 == '-' && m1.isDigit && m2.isDigit &&
       c2 == '-' && d1.isDigit && d2.isDigit then
      some (digitVal y1 * 1000 + digitVal y2 * 100 + digitVal y3 * 10 + digitVal y4,
            digitVal m1 * 10 + digitVal m2,
            digitVal d1 * 10 + digitVal d2)
    else none
  | _ => none

/-- Gregorian leap year rule used by `datetime`. -/
def isLeapYear (y : Nat) : Bool :=
  y % 4 == 0 && (y % 100 != 0 || y % 400 == 0)

/-- Days in a month of a given year. -/
def daysInMonth (y m : Nat) : Nat :=
  if m = 2 then (if isLeapYear y then 29 else 28)
  else if m = 4 ∨ m = 6 ∨ m = 9 ∨ m = 11 then 30
  else 31

/-- A parsed (year, month, day) triple is a real `datetime` date. -/
def validYMD : Nat × Nat × Nat → Bool
  | (y, m, d) =>
    1 ≤ y && 1 ≤ m && m ≤ 12 && 1 ≤ d && d ≤ daysInMonth y m

/-- `validate_date` on a non-`None` string: shape plus calendar validity. -/
def isValidDateString (s : String) : Bool :=
  match parseDate s with
  | none => false
  | some ymd => validYMD ymd

/-- `validate_date`: `None` is valid; otherwise shape and calendar checks. -/
def validate_date (date_str : Option String) : Bool :=
  match date_str with
  | none => true
  | some s => isValidDateString s

/-- Chronological strict order on parsed dates: lexicographic on
(year, month, day), exactly how `datetime` objects compare. -/
def ymdLt : Nat × Nat × Nat → Nat × Nat × Nat → Bool
  | (y1, m1, d1), (y2, m2, d2) =>
    y1 < y2 || (y1 == y2 && (m1 < m2 || (m1 == m2 && d1 < d2)))

/-- `datetime.strptime(a) < datetime.strptime(b)` for two parseable date
strings (`false` when either fails to parse; `validate_date_range` only
compares strings that already validated). -/
def dateBefore (a b : String) : Bool :=
  match parseDate a, parseDate b with
  | some x, some y => ymdLt x y
  | _, _ => false

/-- Validation errors, abstracting the Thai error message strings the
services return. -/
inductive SvcError where
  | textRequired
  | planNotFound (id : Nat)
  | issueNotFound (id : Nat)
  | kpiNotFound (id : Nat)
  | initiativeNotFound (id : Nat)
  | numericOutOfRange
  | invalidChoice
  | invalidStartDate
  | invalidEndDate
  | endBeforeStart
  | issueNotInPlan (id : Nat)
  | deleteFailed (id : Nat)
deriving Repr, DecidableEq

/-- `validate_date_range`: each date individually valid (start first), then,
when both are present (both non-`None`; an empty string would already have
failed `validate_date`), reject iff end is strictly before start. `none`
means valid. -/
def validate_date_range (start_date end_date : Option String) : Option SvcError :=
  if !validate_date start_date then some .invalidStartDate
  else if !validate_date end_date then some .invalidEndDate
  else
    match start_date, end_date with
    | some s, some e => if dateBefore e s then some .endBeforeStart else none
    | _, _ => none

/-- Python's `old if new is None else new` field merge used by the update
services. -/
def mergeOpt {a : Type} (new old : Option a) : Option a :=
  match new with
  | none => old
  | some v => some v

/-! ## Table rows and database state -/

/-- Row of `strategic_plans` (timestamps omitted, see header). -/
structure PlanRow where
  id : Nat
  name : String
  description : Option String
  start_date : Option String
  end_date : Option String
deriving Repr, DecidableEq

/-- Row of `strategic_issues`. -/
structure IssueRow where
  id : Nat
  plan_id : Nat
  name : String
  description : Option String
  priority : Option Int
deriving Repr, DecidableEq

/-- Row of `kpis`. -/
structure KpiRow where
  id : Nat
  issue_id : Nat
  name : String
  description : Option String
  target_value : Option ℚ
  current_value : Option ℚ
  unit : Option String
deriving Repr, DecidableEq

/-- Row of `initiatives`. `status` is non-null because every row is written
by `Initiative.save`, which persists `self.status`, and `__init__` replaces
falsy statuses by the default; it is otherwise an arbitrary string because
`save` does not validate it. -/
structure InitiativeRow where
  id : Nat
  issue_id : Nat
  name : String
  description : Option String
  status : String
  budget : Option ℚ
  start_date : Option String
  end_date : Option String
deriving Repr, DecidableEq

/-- The persistent state: the four tables plus their AUTOINCREMENT
counters. -/
structure Database where
  plans : List PlanRow
  issues : List IssueRow
  kpis : List KpiRow
  initiatives : List InitiativeRow
  next_plan_id : Nat
  next_issue_id : Nat
  next_kpi_id : Nat
  next_initiative_id : Nat
deriving Repr, DecidableEq

/-! ## Repository queries (`models/*.py`) -/

/-- `StrategicPlan.get_by_id`: `SELECT * FROM strategic_plans WHERE id = ?`. -/
def Database.getPlanById (db : Database) (pid : Nat) : Option PlanRow :=
  db.plans.find? (fun p => p.id == pid)

/-- `StrategicIssue.get_by_id`. -/
def Database.getIssueById (db : Database) (iid : Nat) : Option IssueRow :=
  db.issues.find? (fun i => i.id == iid)

/-- `KPI.get_by_id`. -/
def Database.getKpiById (db : Database) (kid : Nat) : Option KpiRow :=
  db.kpis.find? (fun k => k.id == kid)

/-- `Initiative.get_by_id` (with the `from_dict` status normalisation). -/
def Database.getInitiativeById (db : Database) (xid : Nat) : Option InitiativeRow :=
  (db.initiatives.find? (fun x => x.id == xid)).map
    (fun x => { x with status := statusOrDefault (some x.status) })

/-- `ORDER BY priority, id` tie-free comparison: SQLite sorts ascending
with NULLs first. Strict part on the priority column. -/
def prioLt : Option Int → Option Int → Bool
  | none, none => false
  | none, some _ => true
  | some _, none => false
  | some a, some b => decide (a < b)

/-- `ORDER BY priority, id` as a total boolean preorder on issue rows. -/
def issueLe (a b : IssueRow) : Bool :=
  if a.priority = b.priority then a.id ≤ b.id else prioLt a.priority b.priority

/-- `ORDER BY priority, id` as a relation for sorting. -/
def issueOrder : IssueRow → IssueRow → Prop := fun a b => issueLe a b = true

instance : DecidableRel issueOrder :=
  fun a b => inferInstanceAs (Decidable (issueLe a b = true))

/-- `ORDER BY id` on KPI rows. -/
def kpiOrder : KpiRow → KpiRow → Prop := fun a b => a.id ≤ b.id

instance : DecidableRel kpiOrder :=
  fun a b => inferInstanceAs (Decidable (a.id ≤ b.id))

/-- `ORDER BY id` on initiative rows. -/
def initiativeOrder : InitiativeRow → InitiativeRow → Prop := fun a b => a.id ≤ b.id

instance : DecidableRel initiativeOrder :=
  fun a b => inferInstanceAs (Decidable (a.id ≤ b.id))

/-- `StrategicIssue.get_by_plan_id`:
`SELECT * FROM strategic_issues WHERE plan_id = ? ORDER BY priority, id`. -/
def Database.getIssuesByPlanId (db : Database) (pid : Nat) : List IssueRow :=
  List.insertionSort issueOrder (db.issues.filter (fun i => i.plan_id == pid))

/-- `KPI.get_by_issue_id`:
`SELECT * FROM kpis WHERE issue_id = ? ORDER BY id`. -/
def Database.getKpisByIssueId (db : Database) (iid : Nat) : List KpiRow :=
  List.insertionSort kpiOrder (db.kpis.filter (fun k => k.issue_id == iid))

/-- `Initiative.get_by_issue_id` (each fetched row passes through
`Initiative.from_dict`, which normalises a falsy status to the default). -/
def Database.getInitiativesByIssueId (db : Database) (iid : Nat) : List InitiativeRow :=
  (List.insertionSort initiativeOrder
      (db.initiatives.filter (fun x => x.issue_id == iid))).map
    (fun x => { x with status := statusOrDefault (some x.status) })

/-! ## Write primitives (`db.py` `insert` / `update` / `delete` with the
`PRAGMA foreign_keys = ON` cascade rules of `initialize_db`) -/

/-- Insert a plan row: the fresh AUTOINCREMENT id is assigned and returned. -/
def Database.insertPlan (db : Database) (name : String)
    (description start_date end_date : Option String) : Database × Nat :=
  let pid := db.next_plan_id
  ({ db with
      plans := db.plans ++ [{ id := pid, name, description, start_date, end_date }],
      next_plan_id := pid + 1 }, pid)

/-- Insert an issue row. -/
def Database.insertIssue (db : Database) (plan_id : Nat) (name : String)
    (description : Option String) (priority : Option Int) : Database × Nat :=
  let iid := db.next_issue_id
  ({ db with
      issues := db.issues ++ [{ id := iid, plan_id, name, description, priority }],
      next_issue_id := iid + 1 }, iid)

/-- Insert a KPI row. -/
def Database.insertKpi (db : Database) (issue_id : Nat) (name : String)
    (description : Option String) (target_value current_value : Option ℚ)
    (unit : Option String) : Database × Nat :=
  let kid := db.next_kpi_id
  ({ db with
      kpis := db.kpis ++
        [{ id := kid, issue_id, name, description, target_value, current_value, unit }],
      next_kpi_id := kid + 1 }, kid)

/-- Insert an initiative row. -/
def Database.insertInitiative (db : Database) (issue_id : Nat) (name : String)
    (description : Option String) (status : String) (budget : Option ℚ)
    (start_date end_date : Option String) : Database × Nat :=
  let xid := db.next_initiative_id
  ({ db with
      initiatives := db.initiatives ++
        [{ id := xid, issue_id, name, description, status, budget, start_date, end_date }],
      next_initiative_id := xid + 1 }, xid)

/-- `UPDATE strategic_plans SET ... WHERE id = ?` with the merged row. -/
def Database.updatePlanRow (db : Database) (p : PlanRow) : Database :=
  { db with plans := db.plans.map (fun q => if q.id == p.id then p else q) }

/-- `UPDATE strategic_issues SET ... WHERE id = ?`. -/
def Database.updateIssueRow (db : Database) (i : IssueRow) : Database :=
  { db with issues := db.issues.map (fun q => if q.id == i.id then i else q) }

/-- `UPDATE kpis SET ... WHERE id = ?`. -/
def Database.updateKpiRow (db : Database) (k : KpiRow) : Database :=
  { db with kpis := db.kpis.map (fun q => if q.id == k.id then k else q) }

/-- `UPDATE initiatives SET ... WHERE id = ?`. -/
def Database.updateInitiativeRow (db : Database) (x : InitiativeRow) : Database :=
  { db with initiatives := db.initiatives.map (fun q => if q.id == x.id then x else q) }

/-- `DELETE FROM strategic_plans WHERE id = ?`: the `ON DELETE CASCADE`
rules drop the plan's issues and, transitively, their KPIs and
initiatives. -/
def Database.deletePlanRow (db : Database) (pid : Nat) : Database :=
  let goneIssues := (db.issues.filter (fun i => i.plan_id == pid)).map (fun i => i.id)
  { db with
      plans := db.plans.filter (fun p => p.id != pid),
      issues := db.issues.filter (fun i => i.plan_id != pid),
      kpis := db.kpis.filter (fun k => !goneIssues.contains k.issue_id),
      initiatives := db.initiatives.filter (fun x => !goneIssues.contains x.issue_id) }

/-- `DELETE FROM strategic_issues WHERE id = ?` with cascade to KPIs and
initiatives. -/
def Database.deleteIssueRow (db : Database) (iid : Nat) : Database :=
  { db with
      issues := db.issues.filter (fun i => i.id != iid),
      kpis := db.kpis.filter (fun k => k.issue_id != iid),
      initiatives := db.initiatives.filter (fun x => x.issue_id != iid) }

/-- `DELETE FROM kpis WHERE id = ?`. -/
def Database.deleteKpiRow (db : Database) (kid : Nat) : Database :=
  { db with kpis := db.kpis.filter (fun k => k.id != kid) }

/-- `DELETE FROM initiatives WHERE id = ?`. -/
def Database.deleteInitiativeRow (db : Database) (xid : Nat) : Database :=
  { db with initiatives := db.initiatives.filter (fun x => x.id != xid) }

/-! ## Service results -/

/-- Result of a `create_*` service call: the state afterwards plus the
`(new_id, error_message)` pair. -/
structure CreateResult where
  db : Database
  id : Option Nat
  err : Option SvcError
deriving Repr, DecidableEq

/-- Result of an `update_*` / `delete_*` service call: the state afterwards
plus the `(success, error_message)` pair. -/
structure OpResult where
  db : Database
  ok : Bool
  err : Option SvcError
deriving Repr, DecidableEq

/-! ## PlanService (`services/plan_service.py`) -/

/-- `PlanService.create_plan`: validate the name, then the date range, then
insert. -/
def PlanService.create_plan (db : Database) (name : String)
    (description start_date end_date : Option String) : CreateResult :=
  if !validate_text (some name) 1 false then ⟨db, none, some .textRequired⟩
  else
    match validate_date_range start_date end_date with
    | some e => ⟨db, none, some e⟩
    | none =>
      let r := db.insertPlan name description start_date end_date
      ⟨r.1, some r.2, none⟩

/-- `PlanService.update_plan`: fetch, validate the name if provided,
re-validate the merged date range, then write the merged row. -/
def PlanService.update_plan (db : Database) (plan_id : Nat) (name : Option String)
    (description start_date end_date : Option String) : OpResult :=
  match db.getPlanById plan_id with
  | none => ⟨db, false, some (.planNotFound plan_id)⟩
  | some p =>
    if name.isSome ∧ !validate_text name 1 false then ⟨db, false, some .textRequired⟩
    else
      match validate_date_range (mergeOpt start_date p.start_date)
          (mergeOpt end_date p.end_date) with
      | some e => ⟨db, false, some e⟩
      | none =>
        let p' : PlanRow :=
          { p with
              name := name.getD p.name,
              description := mergeOpt description p.description,
              start_date := mergeOpt start_date p.start_date,
              end_date := mergeOpt end_date p.end_date }
        ⟨db.updatePlanRow p', true, none⟩

/-- `PlanService.delete_plan`: fetch, then delete (cascading). -/
def PlanService.delete_plan (db : Database) (plan_id : Nat) : OpResult :=
  match db.getPlanById plan_id with
  | none => ⟨db, false, some (.planNotFound plan_id)⟩
  | some _ =>
    let db' := db.deletePlanRow plan_id
    if db.plans.any (fun p => p.id == plan_id) then ⟨db', true, none⟩
    else ⟨db', false, some (.deleteFailed plan_id)⟩

/-! ## IssueService (`services/issue_service.py`) -/

/-- `IssueService.create_issue`: plan existence, name, optional priority
(numeric ≥ 1), then insert. -/
def IssueService.create_issue (db : Database) (plan_id : Nat) (name : String)
    (description : Option String) (priority : Option Int) : CreateResult :=
  if (db.getPlanById plan_id).isNone then ⟨db, none, some (.planNotFound plan_id)⟩
  else if !validate_text (some name) 1 false then ⟨db, none, some .textRequired⟩
  else if priority.isSome ∧
      !validate_numeric (priority.map (fun p => (p : ℚ))) (some 1) none true then
    ⟨db, none, some .numericOutOfRange⟩
  else
    let r := db.insertIssue plan_id name description priority
    ⟨r.1, some r.2, none⟩

/-- `IssueService.update_issue`. -/
def IssueService.update_issue (db : Database) (issue_id : Nat) (name : Option String)
    (description : Option String) (priority : Option Int) : OpResult :=
  match db.getIssueById issue_id with
  | none => ⟨db, false, some (.issueNotFound issue_id)⟩
  | some i =>
    if name.isSome ∧ !validate_text name 1 false then ⟨db, false, some .textRequired⟩
    else if priority.isSome ∧
        !validate_numeric (priority.map (fun p => (p : ℚ))) (some 1) none true then
      ⟨db, false, some .numericOutOfRange⟩
    else
      let i' : IssueRow :=
        { i with
            name := name.getD i.name,
            description := mergeOpt description i.description,
            priority := mergeOpt priority i.priority }
      ⟨db.updateIssueRow i', true, none⟩

/-- `IssueService.delete_issue`: fetch, then delete (cascading). -/
def IssueService.delete_issue (db : Database) (issue_id : Nat) : OpResult :=
  match db.getIssueById issue_id with
  | none => ⟨db, false, some (.issueNotFound issue_id)⟩
  | some _ =>
    let db' := db.deleteIssueRow issue_id
    if db.issues.any (fun i => i.id == issue_id) then ⟨db', true, none⟩
    else ⟨db', false, some (.deleteFailed issue_id)⟩

/-- The priority-assignment loop of `IssueService.reorder_priorities`:
`for i, issue_id in enumerate(issue_ids, 1): issue.priority = i; issue.save()`. -/
def setPriorities (issues : List IssueRow) (ids : List Nat) (k : Int) : List IssueRow :=
  match ids with
  | [] => issues
  | x :: rest =>
    setPriorities
      (issues.map (fun j => if j.id == x then { j with priority := some k } else j))
      rest (k + 1)

/-- `IssueService.reorder_priorities`: plan must exist, every listed id must
be an issue of the plan, then priorities are assigned by 1-based list
position. -/
def IssueService.reorder_priorities (db : Database) (plan_id : Nat)
    (issue_ids : List Nat) : OpResult :=
  match db.getPlanById plan_id with
  | none => ⟨db, false, some (.planNotFound plan_id)⟩
  | some _ =>
    match issue_ids.find?
        (fun x => !((db.getIssuesByPlanId plan_id).map (fun i => i.id)).contains x) with
    | some bad => ⟨db, false, some (.issueNotInPlan bad)⟩
    | none => ⟨{ db with issues := setPriorities db.issues issue_ids 1 }, true, none⟩

/-! ## KPI progress (`KPI.progress` in `models/kpi.py`) -/

/-- `KPI.progress`: `None` when either value is absent or the target is
zero, else `current / target * 100`. -/
def kpiProgress (target_value current_value : Option ℚ) : Option ℚ :=
  match target_value, current_value with
  | none, _ => none
  | some _, none => none
  | some t, some c => if t = 0 then none else some (c / t * 100)

/-- `progress` of a stored KPI row. -/
def KpiRow.progress (k : KpiRow) : Option ℚ :=
  kpiProgress k.target_value k.current_value

/-! ## KPIService (`services/kpi_service.py`) -/

/-- `KPIService.create_kpi`: issue existence, name, then the (unbounded)
numeric checks on target and current value, then insert. -/
def KPIService.create_kpi (db : Database) (issue_id : Nat) (name : String)
    (description : Option String) (target_value current_value : Option ℚ)
    (unit : Option String) : CreateResult :=
  if (db.getIssueById issue_id).isNone then ⟨db, none, some (.issueNotFound issue_id)⟩
  else if !validate_text (some name) 1 false then ⟨db, none, some .textRequired⟩
  else if target_value.isSome ∧ !validate_numeric target_value none none true then
    ⟨db, none, some .numericOutOfRange⟩
  else if current_value.isSome ∧ !validate_numeric current_value none none true then
    ⟨db, none, some .numericOutOfRange⟩
  else
    let r := db.insertKpi issue_id name description target_value current_value unit
    ⟨r.1, some r.2, none⟩

/-- `KPIService.update_kpi`. -/
def KPIService.update_kpi (db : Database) (kpi_id : Nat) (name : Option String)
    (description : Option String) (target_value current_value : Option ℚ)
    (unit : Option String) : OpResult :=
  match db.getKpiById kpi_id with
  | none => ⟨db, false, some (.kpiNotFound kpi_id)⟩
  | some k =>
    if name.isSome ∧ !validate_text name 1 false then ⟨db, false, some .textRequired⟩
    else if target_value.isSome ∧ !validate_numeric target_value none none true then
      ⟨db, false, some .numericOutOfRange⟩
    else if current_value.isSome ∧ !validate_numeric current_value none none true then
      ⟨db, false, some .numericOutOfRange⟩
    else
      let k' : KpiRow :=
        { k with
            name := name.getD k.name,
            description := mergeOpt description k.description,
            target_value := mergeOpt target_value k.target_value,
            current_value := mergeOpt current_value k.current_value,
            unit := mergeOpt unit k.unit }
      ⟨db.updateKpiRow k', true, none⟩

/-- `KPIService.delete_kpi`. -/
def KPIService.delete_kpi (db : Database) (kpi_id : Nat) : OpResult :=
  match db.getKpiById kpi_id with
  | none => ⟨db, false, some (.kpiNotFound kpi_id)⟩
  | some _ =>
    let db' := db.deleteKpiRow kpi_id
    if db.kpis.any (fun k => k.id == kpi_id) then ⟨db', true, none⟩
    else ⟨db', false, some (.deleteFailed kpi_id)⟩

/-- `KPIService.update_progress`: set `current_value` only. -/
def KPIService.update_progress (db : Database) (kpi_id : Nat)
    (current_value : ℚ) : OpResult :=
  match db.getKpiById kpi_id with
  | none => ⟨db, false, some (.kpiNotFound kpi_id)⟩
  | some k =>
    if !validate_numeric (some current_value) none none true then
      ⟨db, false, some .numericOutOfRange⟩
    else
      ⟨db.updateKpiRow { k with current_value := some current_value }, true, none⟩

/-! ## InitiativeService (`services/initiative_service.py`) -/

/-- `InitiativeService.create_initiative`: issue existence, name, status
(defaulted to NOT_STARTED when absent), budget ≥ 0, date range, then
insert. -/
def InitiativeService.create_initiative (db : Database) (issue_id : Nat) (name : String)
    (description : Option String) (status : Option String) (budget : Option ℚ)
    (start_date end_date : Option String) : CreateResult :=
  if (db.getIssueById issue_id).isNone then ⟨db, none, some (.issueNotFound issue_id)⟩
  else if !validate_text (some name) 1 false then ⟨db, none, some .textRequired⟩
  else if status.isSome ∧ !validate_in_list status VALID_STATUSES true then
    ⟨db, none, some .invalidChoice⟩
  else if budget.isSome ∧ !validate_numeric budget (some 0) none true then
    ⟨db, none, some .numericOutOfRange⟩
  else
    match validate_date_range start_date end_date with
    | some e => ⟨db, none, some e⟩
    | none =>
      let st := status.getD STATUS_NOT_STARTED
      let r :=
        db.insertInitiative issue_id name description (statusOrDefault (some st))
          budget start_date end_date
      ⟨r.1, some r.2, none⟩

/-- `InitiativeService.update_initiative`: fetch, validate the provided
fields, re-validate the merged date range, then write the merged row. -/
def InitiativeService.update_initiative (db : Database) (initiative_id : Nat)
    (name : Option String) (description : Option String) (status : Option String)
    (budget : Option ℚ) (start_date end_date : Option String) : OpResult :=
  match db.getInitiativeById initiative_id with
  | none => ⟨db, false, some (.initiativeNotFound initiative_id)⟩
  | some x =>
    if name.isSome ∧ !validate_text name 1 false then ⟨db, false, some .textRequired⟩
    else if status.isSome ∧ !validate_in_list status VALID_STATUSES true then
      ⟨db, false, some .invalidChoice⟩
    else if budget.isSome ∧ !validate_numeric budget (some 0) none true then
      ⟨db, false, some .numericOutOfRange⟩
    else
      match validate_date_range (mergeOpt start_date x.start_date)
          (mergeOpt end_date x.end_date) with
      | some e => ⟨db, false, some e⟩
      | none =>
        let x' : InitiativeRow :=
          { x with
              name := name.getD x.name,
              description := mergeOpt description x.description,
              status := status.getD x.status,
              budget := mergeOpt budget x.budget,
              start_date := mergeOpt start_date x.start_date,
              end_date := mergeOpt end_date x.end_date }
        ⟨db.updateInitiativeRow x', true, none⟩

/-- `InitiativeService.delete_initiative`. -/
def InitiativeService.delete_initiative (db : Database) (initiative_id : Nat) : OpResult :=
  match db.getInitiativeById initiative_id with
  | none => ⟨db, false, some (.initiativeNotFound initiative_id)⟩
  | some _ =>
    let db' := db.deleteInitiativeRow initiative_id
    if db.initiatives.any (fun x => x.id == initiative_id) then ⟨db', true, none⟩
    else ⟨db', false, some (.deleteFailed initiative_id)⟩

/-- `InitiativeService.update_status`: fetch, validate the status against
the five values, then write it. -/
def InitiativeService.update_status (db : Database) (initiative_id : Nat)
    (status : String) : OpResult :=
  match db.getInitiativeById initiative_id with
  | none => ⟨db, false, some (.initiativeNotFound initiative_id)⟩
  | some x =>
    if !validate_in_list (some status) VALID_STATUSES true then
      ⟨db, false, some .invalidChoice⟩
    else
      ⟨db.updateInitiativeRow { x with status := status }, true, none⟩

/-! ## ReportService (`services/report_service.py`) -/

/-- Per-issue block of `ReportService.generate_plan_summary`. -/
structure IssueSummary where
  issue : IssueRow
  kpi_count : Nat
  kpi_achieved : Nat
  kpi_progress : Option ℚ
  initiative_count : Nat
  initiative_status : List (String × Nat)
  budget : ℚ
deriving Repr, DecidableEq

/-- `ReportService.generate_plan_summary` result. -/
structure PlanSummary where
  plan : PlanRow
  issue_count : Nat
  issues : List IssueSummary
  kpi_count : Nat
  initiative_count : Nat
  total_budget : ℚ
deriving Repr, DecidableEq

/-- The issue-level statistics of `generate_plan_summary`, verbatim from
the loop body:
`issue_budget = sum(init.budget or 0 ...)`,
`kpi_achieved = sum(1 for kpi in kpis if kpi.progress is not None and kpi.progress >= 100)`,
`kpi_progress = sum(kpi.progress or 0 for kpi in kpis if kpi.progress is not None) / len(kpis) if kpis else None`,
`status_counts[status] = sum(1 for init in initiatives if init.status == status)`. -/
def issueSummaryOf (issue : IssueRow) (kpis : List KpiRow)
    (initiatives : List InitiativeRow) : IssueSummary :=
  { issue := issue,
    kpi_count := kpis.length,
    kpi_achieved :=
      (kpis.filter (fun k => match k.progress with
        | some p => decide (100 ≤ p)
        | none => false)).length,
    kpi_progress :=
      if kpis.isEmpty then none
      else some ((kpis.filterMap KpiRow.progress).sum / (kpis.length : ℚ)),
    initiative_count := initiatives.length,
    initiative_status :=
      VALID_STATUSES.map (fun s =>
        (s, (initiatives.filter (fun x => x.status == s)).length)),
    budget := (initiatives.map (fun x => x.budget.getD 0)).sum }

/-- `ReportService.generate_plan_summary`. -/
def ReportService.generate_plan_summary (db : Database) (plan_id : Nat) :
    Option PlanSummary × Option SvcError :=
  match db.getPlanById plan_id with
  | none => (none, some (.planNotFound plan_id))
  | some plan =>
    let issues := db.getIssuesByPlanId plan_id
    let isums := issues.map (fun issue =>
      issueSummaryOf issue (db.getKpisByIssueId issue.id)
        (db.getInitiativesByIssueId issue.id))
    (some
      { plan := plan,
        issue_count := issues.length,
        issues := isums,
        kpi_count := (isums.map (fun s => s.kpi_count)).sum,
        initiative_count := (isums.map (fun s => s.initiative_count)).sum,
        total_budget := (isums.map (fun s => s.budget)).sum }, none)

/-! ### `ReportService.generate_initiative_summary`

The status-count loop does `status_counts[initiative.status] += 1` on a
dict whose keys are exactly `VALID_STATUSES`; a status outside the keys
raises an uncaught `KeyError`. The embedding returns `Except` with the
exception on the error side. -/

/-- A Python runtime exception escaping the report code. -/
inductive PyError where
  | keyError (key : String)
deriving Repr, DecidableEq

/-- `status_counts[initiative.status] += 1`: `none` when the key is absent
(the `KeyError` case). -/
def incrCount (counts : List (String × Nat)) (s : String) : Option (List (String × Nat)) :=
  if counts.any (fun p => p.1 == s) then
    some (counts.map (fun p => if p.1 == s then (p.1, p.2 + 1) else p))
  else none

/-- Result of `generate_initiative_summary` (the per-initiative data list
is kept as the fetched rows). -/
structure InitiativeSummaryReport where
  plan : PlanRow
  initiative_count : Nat
  total_budget : ℚ
  status_counts : List (String × Nat)
  initiative_data : List InitiativeRow
  status_distribution : List (String × ℚ)
deriving Repr, DecidableEq

/-- Accumulator state of the initiative-summary loop. -/
structure InitAcc where
  count : Nat
  budget : ℚ
  counts : List (String × Nat)
  data : List InitiativeRow
deriving Repr, DecidableEq

/-- Body of the nested loop of `generate_initiative_summary`, one fetched
initiative at a time: append, count, bump the status counter (raising
`KeyError` on an unknown status), and add a truthy budget. -/
def initiativeLoop (acc : InitAcc) (xs : List InitiativeRow) : Except PyError InitAcc :=
  match xs with
  | [] => .ok acc
  | x :: rest =>
    match incrCount acc.counts x.status with
    | none => .error (.keyError x.status)
    | some counts' =>
      initiativeLoop
        { count := acc.count + 1,
          budget := acc.budget + (match x.budget with
            | none => 0
            | some b => if b = 0 then 0 else b),
          counts := counts',
          data := acc.data ++ [x] } rest

/-- `ReportService.generate_initiative_summary`: `.error` models an
uncaught exception; `.ok` carries the `(result, error_message)` pair the
function returns. -/
def ReportService.generate_initiative_summary (db : Database) (plan_id : Nat) :
    Except PyError (Option InitiativeSummaryReport × Option SvcError) :=
  match db.getPlanById plan_id with
  | none => .ok (none, some (.planNotFound plan_id))
  | some plan =>
    match initiativeLoop ⟨0, 0, VALID_STATUSES.map (fun s => (s, 0)), []⟩
        ((db.getIssuesByPlanId plan_id).flatMap
          (fun issue => db.getInitiativesByIssueId issue.id)) with
    | .error e => .error e
    | .ok acc =>
      .ok (some
        { plan := plan,
          initiative_count := acc.count,
          total_budget := acc.budget,
          status_counts := acc.counts,
          initiative_data := acc.data,
          status_distribution :=
            if 0 < acc.count then
              acc.counts.map (fun p => (p.1, ((p.2 : ℚ) / (acc.count : ℚ)) * 100))
            else VALID_STATUSES.map (fun s => (s, 0)) }, none)

/-! ## Entities and attribute mappings (`from_dict` / `to_dict`)

The entity structures mirror the `__init__` attributes (timestamps
included); the `*Dict` structures mirror the key set of `to_dict`, which is
also the column set of a storage row. -/

/-- In-memory `StrategicPlan` object. -/
structure StrategicPlan where
  id : Option Nat
  name : String
  description : Option String
  start_date : Option String
  end_date : Option String
  created_at : Option String
  updated_at : Option String
deriving Repr, DecidableEq

/-- Attribute mapping of a `StrategicPlan` (keys of `to_dict` / columns of
a `strategic_plans` row). -/
structure PlanDict where
  id : Option Nat
  name : String
  description : Option String
  start_date : Option String
  end_date : Option String
  created_at : Option String
  updated_at : Option String
deriving Repr, DecidableEq

/-- `StrategicPlan.from_dict`. -/
def StrategicPlan.from_dict (d : PlanDict) : StrategicPlan :=
  { id := d.id, name := d.name, description := d.description,
    start_date := d.start_date, end_date := d.end_date,
    created_at := d.created_at, updated_at := d.updated_at }

/-- `StrategicPlan.to_dict`. -/
def StrategicPlan.to_dict (p : StrategicPlan) : PlanDict :=
  { id := p.id, name := p.name, description := p.description,
    start_date := p.start_date, end_date := p.end_date,
    created_at := p.created_at, updated_at := p.updated_at }

/-- In-memory `StrategicIssue` object. -/
structure StrategicIssue where
  id : Option Nat
  plan_id : Nat
  name : String
  description : Option String
  priority : Option Int
  created_at : Option String
  updated_at : Option String
deriving Repr, DecidableEq

/-- Attribute mapping of a `StrategicIssue`. -/
structure IssueDict where
  id : Option Nat
  plan_id : Nat
  name : String
  description : Option String
  priority : Option Int
  created_at : Option String
  updated_at : Option String
deriving Repr, DecidableEq

/-- `StrategicIssue.from_dict`. -/
def StrategicIssue.from_dict (d : IssueDict) : StrategicIssue :=
  { id := d.id, plan_id := d.plan_id, name := d.name,
    description := d.description, priority := d.priority,
    created_at := d.created_at, updated_at := d.updated_at }

/-- `StrategicIssue.to_dict`. -/
def StrategicIssue.to_dict (i : StrategicIssue) : IssueDict :=
  { id := i.id, plan_id := i.plan_id, name := i.name,
    description := i.description, priority := i.priority,
    created_at := i.created_at, updated_at := i.updated_at }

/-- In-memory `KPI` object. -/
structure KPI where
  id : Option Nat
  issue_id : Nat
  name : String
  description : Option String
  target_value : Option ℚ
  current_value : Option ℚ
  unit : Option String
  created_at : Option String
  updated_at : Option String
deriving Repr, DecidableEq

/-- Attribute mapping of a `KPI`. -/
structure KpiDict where
  id : Option Nat
  issue_id : Nat
  name : String
  description : Option String
  target_value : Option ℚ
  current_value : Option ℚ
  unit : Option String
  created_at : Option String
  updated_at : Option String
deriving Repr, DecidableEq

/-- `KPI.from_dict`. -/
def KPI.from_dict (d : KpiDict) : KPI :=
  { id := d.id, issue_id := d.issue_id, name := d.name,
    description := d.description, target_value := d.target_value,
    current_value := d.current_value, unit := d.unit,
    created_at := d.created_at, updated_at := d.updated_at }

/-- `KPI.to_dict`. -/
def KPI.to_dict (k : KPI) : KpiDict :=
  { id := k.id, issue_id := k.issue_id, name := k.name,
    description := k.description, target_value := k.target_value,
    current_value := k.current_value, unit := k.unit,
    created_at := k.created_at, updated_at := k.updated_at }

/-- `KPI.progress` on the in-memory object. -/
def KPI.progress (k : KPI) : Option ℚ :=
  kpiProgress k.target_value k.current_value

/-- In-memory `Initiative` object. `status` is a plain string because
`__init__` replaces falsy values by the default. -/
structure Initiative where
  id : Option Nat
  issue_id : Nat
  name : String
  description : Option String
  status : String
  budget : Option ℚ
  start_date : Option String
  end_date : Option String
  created_at : Option String
  updated_at : Option String
deriving Repr, DecidableEq

/-- Attribute mapping of an `Initiative`; `status` is optional here
because the storage column is nullable. -/
structure InitiativeDict where
  id : Option Nat
  issue_id : Nat
  name : String
  description : Option String
  status : Option String
  budget : Option ℚ
  start_date : Option String
  end_date : Option String
  created_at : Option String
  updated_at : Option String
deriving Repr, DecidableEq

/-- `Initiative.__init__` on keyword arguments: the only computed
attribute is `status or STATUS_NOT_STARTED`. -/
def Initiative.init (issue_id : Nat) (name : String) (description : Option String)
    (status : Option String) (budget : Option ℚ)
    (start_date end_date : Option String) (id : Option Nat)
    (created_at updated_at : Option String) : Initiative :=
  { id := id, issue_id := issue_id, name := name, description := description,
    status := statusOrDefault status, budget := budget,
    start_date := start_date, end_date := end_date,
    created_at := created_at, updated_at := updated_at }

/-- `Initiative.from_dict` (constructs through `__init__`). -/
def Initiative.from_dict (d : InitiativeDict) : Initiative :=
  Initiative.init d.issue_id d.name d.description d.status d.budget
    d.start_date d.end_date d.id d.created_at d.updated_at

/-- `Initiative.to_dict`. -/
def Initiative.to_dict (x : Initiative) : InitiativeDict :=
  { id := x.id, issue_id := x.issue_id, name := x.name,
    description := x.description, status := some x.status, budget := x.budget,
    start_date := x.start_date, end_date := x.end_date,
    created_at := x.created_at, updated_at := x.updated_at }

/-! # Theorems -/

/-- C3: for every KPI, `progress` is undefined exactly when `target_value`
is absent, `current_value` is absent, or `target_value` is 0, and otherwise
equals `current_value / target_value * 100` exactly. -/
theorem kpi_progress_spec (k : KPI) :
    (k.progress = none ↔
      k.target_value = none ∨ k.current_value = none ∨ k.target_value = some 0)
    ∧ (∀ t c : ℚ, k.target_value = some t → k.current_value = some c → t ≠ 0 →
        k.progress = some (c / t * 100)) := by
  constructor
  · unfold KPI.progress kpiProgress
    cases h1 : k.target_value <;> cases h2 : k.current_value <;> simp
  · intro t c ht hc hne
    unfold KPI.progress kpiProgress
    rw [ht, hc]
    simp [hne]

/-- Witness for C3 at the spec scenario: target 100 and current 75 gives
progress 75; target 0 gives undefined. -/
theorem kpi_progress_spec_witness :
    ({ id := none, issue_id := 1, name := "k", description := none,
       target_value := some 100, current_value := some 75, unit := none,
       created_at := none, updated_at := none } : KPI).progress = some 75
    ∧ ({ id := none, issue_id := 1, name := "k", description := none,
         target_value := some 0, current_value := some 75, unit := none,
         created_at := none, updated_at := none } : KPI).progress = none := by
  constructor
  · have h := (kpi_progress_spec
      { id := none, issue_id := 1, name := "k", description := none,
        target_value := some 100, current_value := some 75, unit := none,
        created_at := none, updated_at := none }).2 100 75 rfl rfl (by norm_num)
    rw [h]
    norm_num
  · exact (kpi_progress_spec
      { id := none, issue_id := 1, name := "k", description := none,
        target_value := some 0, current_value := some 75, unit := none,
        created_at := none, updated_at := none }).1.mpr (by simp)

/-- C8: for every entity, `to_dict` followed by `from_dict` reproduces the
entity field for field, and `from_dict` followed by `to_dict` reproduces a
storage row mapping. For `Initiative` this holds given the invariant that
`__init__` establishes (status is a non-empty string, the default when the
input was falsy); the last conjunct shows the constructor establishes it. -/
theorem entity_dict_round_trip :
    (∀ p : StrategicPlan, StrategicPlan.from_dict p.to_dict = p)
    ∧ (∀ d : PlanDict, (StrategicPlan.from_dict d).to_dict = d)
    ∧ (∀ i : StrategicIssue, StrategicIssue.from_dict i.to_dict = i)
    ∧ (∀ d : IssueDict, (StrategicIssue.from_dict d).to_dict = d)
    ∧ (∀ k : KPI, KPI.from_dict k.to_dict = k)
    ∧ (∀ d : KpiDict, (KPI.from_dict d).to_dict = d)
    ∧ (∀ x : Initiative, x.status ≠ "" → Initiative.from_dict x.to_dict = x)
    ∧ (∀ d : InitiativeDict, ∀ s, d.status = some s → s ≠ "" →
        (Initiative.from_dict d).to_dict = d)
    ∧ (∀ issue_id name description status budget start_date end_date id
          created_at updated_at,
        (Initiative.init issue_id name description status budget start_date
          end_date id created_at updated_at).status ≠ "") := by
  refine ⟨fun p => rfl, fun d => rfl, fun i => rfl, fun d => rfl, fun k => rfl,
    fun d => rfl, ?_, ?_, ?_⟩
  · intro x hx
    simp [Initiative.from_dict, Initiative.to_dict, Initiative.init,
      statusOrDefault, hx]
  · intro d s hs hne
    simp only [Initiative.from_dict, Initiative.to_dict, Initiative.init,
      statusOrDefault, hs, if_neg hne]
    rw [← hs]
  · intro issue_id name description status budget start_date end_date id
      created_at updated_at
    cases status with
    | none =>
      simp [Initiative.init, statusOrDefault, STATUS_NOT_STARTED]
    | some s =>
      by_cases h : s = "" <;>
        simp [Initiative.init, statusOrDefault, h, STATUS_NOT_STARTED]

/-- Witness for C8 at a concrete initiative and row mapping. -/
theorem entity_dict_round_trip_witness :
    Initiative.from_dict
        (Initiative.to_dict
          { id := some 3, issue_id := 1, name := "x", description := none,
            status := STATUS_COMPLETED, budget := some 5, start_date := none,
            end_date := none, created_at := none, updated_at := none }) =
      { id := some 3, issue_id := 1, name := "x", description := none,
        status := STATUS_COMPLETED, budget := some 5, start_date := none,
        end_date := none, created_at := none, updated_at := none } := by
  exact entity_dict_round_trip.2.2.2.2.2.2.1
    { id := some 3, issue_id := 1, name := "x", description := none,
      status := STATUS_COMPLETED, budget := some 5, start_date := none,
      end_date := none, created_at := none, updated_at := none }
    (by simp [STATUS_COMPLETED])

/-! ## No-write-on-rejection helper lemmas, one per service operation -/

/-- A rejected `create_plan` leaves the state untouched. -/
theorem create_plan_reject_unchanged (db : Database) (name : String)
    (description start_date end_date : Option String) :
    (PlanService.create_plan db name description start_date end_date).err ≠ none →
    (PlanService.create_plan db name description start_date end_date).db = db := by
  unfold PlanService.create_plan
  split
  · simp
  · split <;> simp

/-- A rejected `update_plan` leaves the state untouched. -/
theorem update_plan_reject_unchanged (db : Database) (plan_id : Nat)
    (name description start_date end_date : Option String) :
    (PlanService.update_plan db plan_id name description start_date end_date).err ≠ none →
    (PlanService.update_plan db plan_id name description start_date end_date).db = db := by
  unfold PlanService.update_plan
  repeat' split
  all_goals simp

/-- A rejected `delete_plan` leaves the state untouched (a lookup failure
is the only rejection; the `rowcount` check cannot fail after a successful
lookup, and even then the delete of a missing id removes nothing). -/
theorem delete_plan_reject_unchanged (db : Database) (plan_id : Nat) :
    (PlanService.delete_plan db plan_id).err ≠ none →
    (PlanService.delete_plan db plan_id).db = db := by
  unfold PlanService.delete_plan
  split
  · simp
  · rename_i p hp
    have hmem := List.mem_of_find?_eq_some hp
    have hpred := List.find?_some hp
    have hany : db.plans.any (fun q => q.id == plan_id) = true :=
      List.any_eq_true.mpr ⟨p, hmem, hpred⟩
    simp [hany]

/-- A rejected `create_issue` leaves the state untouched. -/
theorem create_issue_reject_unchanged (db : Database) (plan_id : Nat) (name : String)
    (description : Option String) (priority : Option Int) :
    (IssueService.create_issue db plan_id name description priority).err ≠ none →
    (IssueService.create_issue db plan_id name description priority).db = db := by
  unfold IssueService.create_issue
  repeat' split
  all_goals simp

/-- A rejected `update_issue` leaves the state untouched. -/
theorem update_issue_reject_unchanged (db : Database) (issue_id : Nat)
    (name description : Option String) (priority : Option Int) :
    (IssueService.update_issue db issue_id name description priority).err ≠ none →
    (IssueService.update_issue db issue_id name description priority).db = db := by
  unfold IssueService.update_issue
  repeat' split
  all_goals simp

/-- A rejected `delete_issue` leaves the state untouched. -/
theorem delete_issue_reject_unchanged (db : Database) (issue_id : Nat) :
    (IssueService.delete_issue db issue_id).err ≠ none →
    (IssueService.delete_issue db issue_id).db = db := by
  unfold IssueService.delete_issue
  split
  · simp
  · rename_i i hi
    unfold Database.getIssueById at hi
    have hpred := List.find?_some hi
    have hany : db.issues.any (fun q => q.id == issue_id) = true :=
      List.any_eq_true.mpr ⟨i, List.mem_of_find?_eq_some hi, hpred⟩
    simp [hany]

/-- A rejected `reorder_priorities` leaves the state untouched. -/
theorem reorder_priorities_reject_unchanged (db : Database) (plan_id : Nat)
    (issue_ids : List Nat) :
    (IssueService.reorder_priorities db plan_id issue_ids).err ≠ none →
    (IssueService.reorder_priorities db plan_id issue_ids).db = db := by
  unfold IssueService.reorder_priorities
  split
  · simp
  · cases hf : issue_ids.find?
        (fun x => !((db.getIssuesByPlanId plan_id).map (fun i => i.id)).contains x) with
    | none => simp [hf]
    | some bad => simp [hf]

/-- A rejected `create_kpi` leaves the state untouched. -/
theorem create_kpi_reject_unchanged (db : Database) (issue_id : Nat) (name : String)
    (description : Option String) (target_value current_value : Option ℚ)
    (unit : Option String) :
    (KPIService.create_kpi db issue_id name description target_value current_value unit).err ≠ none →
    (KPIService.create_kpi db issue_id name description target_value current_value unit).db = db := by
  unfold KPIService.create_kpi
  repeat' split
  all_goals simp

/-- A rejected `update_kpi` leaves the state untouched. -/
theorem update_kpi_reject_unchanged (db : Database) (kpi_id : Nat)
    (name description : Option String) (target_value current_value : Option ℚ)
    (unit : Option String) :
    (KPIService.update_kpi db kpi_id name description target_value current_value unit).err ≠ none →
    (KPIService.update_kpi db kpi_id name description target_value current_value unit).db = db := by
  unfold KPIService.update_kpi
  repeat' split
  all_goals simp

/-- A rejected `delete_kpi` leaves the state untouched. -/
theorem delete_kpi_reject_unchanged (db : Database) (kpi_id : Nat) :
    (KPIService.delete_kpi db kpi_id).err ≠ none →
    (KPIService.delete_kpi db kpi_id).db = db := by
  unfold KPIService.delete_kpi
  split
  · simp
  · rename_i k hk
    unfold Database.getKpiById at hk
    have hpred := List.find?_some hk
    have hany : db.kpis.any (fun q => q.id == kpi_id) = true :=
      List.any_eq_true.mpr ⟨k, List.mem_of_find?_eq_some hk, hpred⟩
    simp [hany]

/-- A rejected `update_progress` leaves the state untouched. -/
theorem update_progress_reject_unchanged (db : Database) (kpi_id : Nat)
    (current_value : ℚ) :
    (KPIService.update_progress db kpi_id current_value).err ≠ none →
    (KPIService.update_progress db kpi_id current_value).db = db := by
  unfold KPIService.update_progress
  repeat' split
  all_goals simp

/-- A rejected `create_initiative` leaves the state untouched. -/
theorem create_initiative_reject_unchanged (db : Database) (issue_id : Nat)
    (name : String) (description : Option String) (status : Option String)
    (budget : Option ℚ) (start_date end_date : Option String) :
    (InitiativeService.create_initiative db issue_id name description status budget
      start_date end_date).err ≠ none →
    (InitiativeService.create_initiative db issue_id name description status budget
      start_date end_date).db = db := by
  unfold InitiativeService.create_initiative
  repeat' split
  all_goals simp

/-- A rejected `update_initiative` leaves the state untouched. -/
theorem update_initiative_reject_unchanged (db : Database) (initiative_id : Nat)
    (name description status : Option String) (budget : Option ℚ)
    (start_date end_date : Option String) :
    (InitiativeService.update_initiative db initiative_id name description status
      budget start_date end_date).err ≠ none →
    (InitiativeService.update_initiative db initiative_id name description status
      budget start_date end_date).db = db := by
  unfold InitiativeService.update_initiative
  repeat' split
  all_goals simp

/-- A rejected `delete_initiative` leaves the state untouched. -/
theorem delete_initiative_reject_unchanged (db : Database) (initiative_id : Nat) :
    (InitiativeService.delete_initiative db initiative_id).err ≠ none →
    (InitiativeService.delete_initiative db initiative_id).db = db := by
  unfold InitiativeService.delete_initiative
  split
  · simp
  · rename_i x hx
    unfold Database.getInitiativeById at hx
    obtain ⟨x0, hfind, -⟩ := Option.map_eq_some'.mp hx
    have hpred := List.find?_some hfind
    have hany : db.initiatives.any (fun q => q.id == initiative_id) = true :=
      List.any_eq_true.mpr ⟨x0, List.mem_of_find?_eq_some hfind, hpred⟩
    simp [hany]

/-- A rejected `update_status` leaves the state untouched. -/
theorem update_status_reject_unchanged (db : Database) (initiative_id : Nat)
    (status : String) :
    (InitiativeService.update_status db initiative_id status).err ≠ none →
    (InitiativeService.update_status db initiative_id status).db = db := by
  unfold InitiativeService.update_status
  repeat' split
  all_goals simp

/-- The empty database right after `initialize_db`. -/
def emptyDb : Database :=
  { plans := [], issues := [], kpis := [], initiatives := [],
    next_plan_id := 1, next_issue_id := 1, next_kpi_id := 1, next_initiative_id := 1 }

/-- C5: for every service create/update/delete operation, an input that is
rejected with a validation error leaves the persistent state exactly as it
was: all validation precedes the single write of the operation. -/
theorem rejected_operations_do_not_write (db : Database)
    (pid iid kid xid : Nat) (nm : String) (onm ds sd ed ost : Option String)
    (pr : Option Int) (tv cv bu : Option ℚ) (un : Option String) (cvq : ℚ)
    (st : String) (ids : List Nat) :
    ((PlanService.create_plan db nm ds sd ed).err ≠ none →
      (PlanService.create_plan db nm ds sd ed).db = db)
    ∧ ((PlanService.update_plan db pid onm ds sd ed).err ≠ none →
      (PlanService.update_plan db pid onm ds sd ed).db = db)
    ∧ ((PlanService.delete_plan db pid).err ≠ none →
      (PlanService.delete_plan db pid).db = db)
    ∧ ((IssueService.create_issue db pid nm ds pr).err ≠ none →
      (IssueService.create_issue db pid nm ds pr).db = db)
    ∧ ((IssueService.update_issue db iid onm ds pr).err ≠ none →
      (IssueService.update_issue db iid onm ds pr).db = db)
    ∧ ((IssueService.delete_issue db iid).err ≠ none →
      (IssueService.delete_issue db iid).db = db)
    ∧ ((IssueService.reorder_priorities db pid ids).err ≠ none →
      (IssueService.reorder_priorities db pid ids).db = db)
    ∧ ((KPIService.create_kpi db iid nm ds tv cv un).err ≠ none →
      (KPIService.create_kpi db iid nm ds tv cv un).db = db)
    ∧ ((KPIService.update_kpi db kid onm ds tv cv un).err ≠ none →
      (KPIService.update_kpi db kid onm ds tv cv un).db = db)
    ∧ ((KPIService.delete_kpi db kid).err ≠ none →
      (KPIService.delete_kpi db kid).db = db)
    ∧ ((KPIService.update_progress db kid cvq).err ≠ none →
      (KPIService.update_progress db kid cvq).db = db)
    ∧ ((InitiativeService.create_initiative db iid nm ds ost bu sd ed).err ≠ none →
      (InitiativeService.create_initiative db iid nm ds ost bu sd ed).db = db)
    ∧ ((InitiativeService.update_initiative db xid onm ds ost bu sd ed).err ≠ none →
      (InitiativeService.update_initiative db xid onm ds ost bu sd ed).db = db)
    ∧ ((InitiativeService.delete_initiative db xid).err ≠ none →
      (InitiativeService.delete_initiative db xid).db = db)
    ∧ ((InitiativeService.update_status db xid st).err ≠ none →
      (InitiativeService.update_status db xid st).db = db) :=
  ⟨create_plan_reject_unchanged db nm ds sd ed,
   update_plan_reject_unchanged db pid onm ds sd ed,
   delete_plan_reject_unchanged db pid,
   create_issue_reject_unchanged db pid nm ds pr,
   update_issue_reject_unchanged db iid onm ds pr,
   delete_issue_reject_unchanged db iid,
   reorder_priorities_reject_unchanged db pid ids,
   create_kpi_reject_unchanged db iid nm ds tv cv un,
   update_kpi_reject_unchanged db kid onm ds tv cv un,
   delete_kpi_reject_unchanged db kid,
   update_progress_reject_unchanged db kid cvq,
   create_initiative_reject_unchanged db iid nm ds ost bu sd ed,
   update_initiative_reject_unchanged db xid onm ds ost bu sd ed,
   delete_initiative_reject_unchanged db xid,
   update_status_reject_unchanged db xid st⟩

/-- Witness for C5: a concrete rejected `create_plan` (empty name) on the
empty database leaves it empty. -/
theorem rejected_operations_do_not_write_witness :
    (PlanService.create_plan emptyDb "" none none none).err ≠ none
    ∧ (PlanService.create_plan emptyDb "" none none none).db = emptyDb := by
  have herr : (PlanService.create_plan emptyDb "" none none none).err ≠ none := by
    decide
  exact ⟨herr,
    (rejected_operations_do_not_write emptyDb 1 1 1 1 "" none none none none none
      none none none none none 0 "x" []).1 herr⟩

/-- Shape of the state after `create_initiative`: either untouched, or the
new row — with the defaulted status — appended. -/
theorem create_initiative_db_shape (db : Database) (iid : Nat) (nm : String)
    (ds ost : Option String) (bu : Option ℚ) (sd ed : Option String) :
    (InitiativeService.create_initiative db iid nm ds ost bu sd ed).db = db ∨
    (InitiativeService.create_initiative db iid nm ds ost bu sd ed).db.initiatives =
      db.initiatives ++
        [{ id := db.next_initiative_id, issue_id := iid, name := nm, description := ds,
           status := statusOrDefault (some (ost.getD STATUS_NOT_STARTED)), budget := bu,
           start_date := sd, end_date := ed }] := by
  unfold InitiativeService.create_initiative
  repeat' split
  all_goals simp [Database.insertInitiative]

/-- An invalid status string fails `validate_in_list` against the five
valid statuses. -/
theorem validate_in_list_invalid (st : String) (hst : st ∉ VALID_STATUSES) :
    validate_in_list (some st) VALID_STATUSES true = false := by
  simp [validate_in_list]
  exact hst

/-- C9: an Initiative created without an explicit status gets the
NOT_STARTED default (every row the call adds carries it), and an update —
via `update_status` or `update_initiative` — supplying a status outside
the five enumerated values is rejected with an error and changes nothing. -/
theorem initiative_status_default_and_validation (db : Database) (iid xid : Nat)
    (nm : String) (onm ds : Option String) (bu : Option ℚ) (sd ed : Option String)
    (st : String) :
    (∀ x ∈ (InitiativeService.create_initiative db iid nm ds none bu sd ed).db.initiatives,
        x ∉ db.initiatives → x.status = STATUS_NOT_STARTED)
    ∧ (st ∉ VALID_STATUSES →
        (InitiativeService.update_status db xid st).err ≠ none
        ∧ (InitiativeService.update_status db xid st).db = db)
    ∧ (st ∉ VALID_STATUSES →
        (InitiativeService.update_initiative db xid onm ds (some st) bu sd ed).err ≠ none
        ∧ (InitiativeService.update_initiative db xid onm ds (some st) bu sd ed).db = db) := by
  refine ⟨?_, ?_, ?_⟩
  · intro x hx hnx
    rcases create_initiative_db_shape db iid nm ds none bu sd ed with h | h
    · rw [h] at hx
      exact absurd hx hnx
    · rw [h] at hx
      rcases List.mem_append.mp hx with hold | hnew
      · exact absurd hold hnx
      · have hxeq := List.mem_singleton.mp hnew
        rw [hxeq]
        simp [statusOrDefault, STATUS_NOT_STARTED]
  · intro hst
    have hc := validate_in_list_invalid st hst
    unfold InitiativeService.update_status
    split
    · exact ⟨by simp, rfl⟩
    · simp [hc]
  · intro hst
    have hc := validate_in_list_invalid st hst
    unfold InitiativeService.update_initiative
    split
    · exact ⟨by simp, rfl⟩
    · split
      · exact ⟨by simp, rfl⟩
      · simp [hc]

/-- Witness for C9: creating an initiative with no status on a one-issue
database yields the NOT_STARTED default, and `update_status` with an
invalid status is rejected without a write. -/
theorem initiative_status_default_and_validation_witness :
    (∀ x ∈ (InitiativeService.create_initiative
        { plans := [{ id := 1, name := "p", description := none,
                      start_date := none, end_date := none }],
          issues := [{ id := 1, plan_id := 1, name := "i", description := none,
                       priority := none }],
          kpis := [], initiatives := [],
          next_plan_id := 2, next_issue_id := 2, next_kpi_id := 1,
          next_initiative_id := 1 } 1 "x" none none none none none).db.initiatives,
      x ∉ ([] : List InitiativeRow) → x.status = STATUS_NOT_STARTED)
    ∧ ((InitiativeService.update_status emptyDb 1 "Invalid").err ≠ none
        ∧ (InitiativeService.update_status emptyDb 1 "Invalid").db = emptyDb) := by
  constructor
  · exact (initiative_status_default_and_validation
      { plans := [{ id := 1, name := "p", description := none,
                    start_date := none, end_date := none }],
        issues := [{ id := 1, plan_id := 1, name := "i", description := none,
                     priority := none }],
        kpis := [], initiatives := [],
        next_plan_id := 2, next_issue_id := 2, next_kpi_id := 1,
        next_initiative_id := 1 } 1 1 "x" none none none none none "s").1
  · exact (initiative_status_default_and_validation emptyDb 1 1 "x" none none none
      none none "Invalid").2.1 (by decide)

/-- `validate_date_range` on two individually valid present dates reduces
to the end-before-start comparison. -/
theorem validate_date_range_of_valid (s e : String) (hs : isValidDateString s = true)
    (he : isValidDateString e = true) :
    validate_date_range (some s) (some e) =
      if dateBefore e s then some SvcError.endBeforeStart else none := by
  unfold validate_date_range validate_date
  simp [hs, he]

/-- C4 counterexample: a `create_plan` call with both dates present and
valid and the end date after the start date is still rejected (empty
name), so rejection is not equivalent to an inverted date range without
assuming the other validations pass. -/
theorem date_range_rejection_counterexample :
    isValidDateString "2024-01-01" = true
    ∧ isValidDateString "2025-01-01" = true
    ∧ dateBefore "2025-01-01" "2024-01-01" = false
    ∧ (PlanService.create_plan emptyDb "" none (some "2024-01-01")
        (some "2025-01-01")).err ≠ none := by
  decide

/-- C4 (amended): for Plan and Initiative create/update calls whose other
validations pass (valid name, existing target row, valid status and
budget), when both merged dates are present and valid the call is rejected
iff the end date is chronologically before the start date, and a rejected
call writes nothing. -/
theorem date_range_rejection_spec (db : Database) (pid iid xid : Nat) (nm : String)
    (onm ds ost : Option String) (bu : Option ℚ) (sdo edo : Option String)
    (s e : String) :
    (validate_text (some nm) 1 false = true →
      isValidDateString s = true → isValidDateString e = true →
      (((PlanService.create_plan db nm ds (some s) (some e)).err ≠ none ↔
          dateBefore e s = true)
        ∧ ((PlanService.create_plan db nm ds (some s) (some e)).err ≠ none →
          (PlanService.create_plan db nm ds (some s) (some e)).db = db)))
    ∧ (∀ p, db.getPlanById pid = some p →
        (onm = none ∨ validate_text onm 1 false = true) →
        mergeOpt sdo p.start_date = some s → mergeOpt edo p.end_date = some e →
        isValidDateString s = true → isValidDateString e = true →
        (((PlanService.update_plan db pid onm ds sdo edo).err ≠ none ↔
            dateBefore e s = true)
          ∧ ((PlanService.update_plan db pid onm ds sdo edo).err ≠ none →
            (PlanService.update_plan db pid onm ds sdo edo).db = db)))
    ∧ ((db.getIssueById iid).isSome = true →
        validate_text (some nm) 1 false = true →
        (ost = none ∨ validate_in_list ost VALID_STATUSES true = true) →
        (bu = none ∨ validate_numeric bu (some 0) none true = true) →
        isValidDateString s = true → isValidDateString e = true →
        (((InitiativeService.create_initiative db iid nm ds ost bu (some s)
              (some e)).err ≠ none ↔ dateBefore e s = true)
          ∧ ((InitiativeService.create_initiative db iid nm ds ost bu (some s)
              (some e)).err ≠ none →
            (InitiativeService.create_initiative db iid nm ds ost bu (some s)
              (some e)).db = db)))
    ∧ (∀ x, db.getInitiativeById xid = some x →
        (onm = none ∨ validate_text onm 1 false = true) →
        (ost = none ∨ validate_in_list ost VALID_STATUSES true = true) →
        (bu = none ∨ validate_numeric bu (some 0) none true = true) →
        mergeOpt sdo x.start_date = some s → mergeOpt edo x.end_date = some e →
        isValidDateString s = true → isValidDateString e = true →
        (((InitiativeService.update_initiative db xid onm ds ost bu sdo edo).err ≠
            none ↔ dateBefore e s = true)
          ∧ ((InitiativeService.update_initiative db xid onm ds ost bu sdo edo).err ≠
              none →
            (InitiativeService.update_initiative db xid onm ds ost bu sdo edo).db =
              db))) := by
  refine ⟨?_, ?_, ?_, ?_⟩
  · intro hnm hs he
    have hguard : ¬((!validate_text (some nm) 1 false) = true) := by simp [hnm]
    unfold PlanService.create_plan
    rw [if_neg hguard, validate_date_range_of_valid s e hs he]
    cases hdb : dateBefore e s <;> simp [hdb]
  · intro p hp hnm hms hme hs he
    have hguard : ¬(onm.isSome = true ∧ (!validate_text onm 1 false) = true) := by
      rcases hnm with rfl | hv
      · simp
      · simp [hv]
    unfold PlanService.update_plan
    rw [hp]
    simp only
    rw [if_neg hguard, hms, hme, validate_date_range_of_valid s e hs he]
    cases hdb : dateBefore e s <;> simp [hdb]
  · intro hiss hnm host hbu hs he
    have hg1 : ¬((db.getIssueById iid).isNone = true) := by
      simp [Option.isNone_iff_eq_none]
      exact Option.isSome_iff_exists.mp hiss |>.elim (fun a ha => by simp [ha])
    have hg2 : ¬((!validate_text (some nm) 1 false) = true) := by simp [hnm]
    have hg3 : ¬(ost.isSome = true ∧ (!validate_in_list ost VALID_STATUSES true) = true) := by
      rcases host with rfl | hv
      · simp
      · simp [hv]
    have hg4 : ¬(bu.isSome = true ∧ (!validate_numeric bu (some 0) none true) = true) := by
      rcases hbu with rfl | hv
      · simp
      · simp [hv]
    unfold InitiativeService.create_initiative
    rw [if_neg hg1, if_neg hg2, if_neg hg3, if_neg hg4,
      validate_date_range_of_valid s e hs he]
    cases hdb : dateBefore e s <;> simp [hdb]
  · intro x hx hnm host hbu hms hme hs he
    have hg2 : ¬(onm.isSome = true ∧ (!validate_text onm 1 false) = true) := by
      rcases hnm with rfl | hv
      · simp
      · simp [hv]
    have hg3 : ¬(ost.isSome = true ∧ (!validate_in_list ost VALID_STATUSES true) = true) := by
      rcases host with rfl | hv
      · simp
      · simp [hv]
    have hg4 : ¬(bu.isSome = true ∧ (!validate_numeric bu (some 0) none true) = true) := by
      rcases hbu with rfl | hv
      · simp
      · simp [hv]
    unfold InitiativeService.update_initiative
    rw [hx]
    simp only
    rw [if_neg hg2, if_neg hg3, if_neg hg4, hms, hme,
      validate_date_range_of_valid s e hs he]
    cases hdb : dateBefore e s <;> simp [hdb]

/-- Witness for C4 at the spec scenario: creating Plan "P" with start
2025-01-01 and end 2024-01-01 is rejected and no row is written. -/
theorem date_range_rejection_spec_witness :
    (PlanService.create_plan emptyDb "P" none (some "2025-01-01")
      (some "2024-01-01")).err ≠ none
    ∧ (PlanService.create_plan emptyDb "P" none (some "2025-01-01")
      (some "2024-01-01")).db = emptyDb := by
  have h := (date_range_rejection_spec emptyDb 1 1 1 "P" none none none none none
    none "2025-01-01" "2024-01-01").1 (by decide) (by decide) (by decide)
  have herr := h.1.mpr (by decide)
  exact ⟨herr, h.2 herr⟩

/-- A small populated database: one plan, two issues under it, two KPIs
under issue 1 (one with defined progress 50, one with target 0), one
initiative under issue 2. -/
def exDb : Database :=
  { plans := [{ id := 1, name := "p", description := none,
                start_date := none, end_date := none }],
    issues := [{ id := 1, plan_id := 1, name := "i1", description := none,
                 priority := some 1 },
               { id := 2, plan_id := 1, name := "i2", description := none,
                 priority := some 2 }],
    kpis := [{ id := 1, issue_id := 1, name := "k1", description := none,
               target_value := some 100, current_value := some 50, unit := none },
             { id := 2, issue_id := 1, name := "k2", description := none,
               target_value := some 0, current_value := some 75, unit := none }],
    initiatives := [{ id := 1, issue_id := 2, name := "x1", description := none,
                      status := STATUS_NOT_STARTED, budget := none,
                      start_date := none, end_date := none }],
    next_plan_id := 2, next_issue_id := 3, next_kpi_id := 3,
    next_initiative_id := 2 }

/-- C2: a successful `delete_plan` removes the plan row, every issue of the
plan, and every KPI and initiative under those issues; a successful
`delete_issue` removes the issue and every KPI and initiative under it. -/
theorem cascade_delete_spec (db : Database) (pid iid : Nat) :
    ((PlanService.delete_plan db pid).ok = true →
      (∀ p ∈ (PlanService.delete_plan db pid).db.plans, p.id ≠ pid)
      ∧ (∀ i ∈ (PlanService.delete_plan db pid).db.issues, i.plan_id ≠ pid)
      ∧ (∀ k ∈ (PlanService.delete_plan db pid).db.kpis,
          ∀ i ∈ db.issues, i.plan_id = pid → k.issue_id ≠ i.id)
      ∧ (∀ x ∈ (PlanService.delete_plan db pid).db.initiatives,
          ∀ i ∈ db.issues, i.plan_id = pid → x.issue_id ≠ i.id))
    ∧ ((IssueService.delete_issue db iid).ok = true →
      (∀ i ∈ (IssueService.delete_issue db iid).db.issues, i.id ≠ iid)
      ∧ (∀ k ∈ (IssueService.delete_issue db iid).db.kpis, k.issue_id ≠ iid)
      ∧ (∀ x ∈ (IssueService.delete_issue db iid).db.initiatives,
          x.issue_id ≠ iid)) := by
  constructor
  · unfold PlanService.delete_plan
    split
    · simp
    · split
      · intro _
        simp only [Database.deletePlanRow]
        refine ⟨?_, ?_, ?_, ?_⟩
        · intro p hp
          have := (List.mem_filter.mp hp).2
          simpa using this
        · intro i hi
          have := (List.mem_filter.mp hi).2
          simpa using this
        · intro k hk i hi hplan heq
          have hpred := (List.mem_filter.mp hk).2
          simp at hpred
          exact hpred i hi hplan heq.symm
        · intro x hx i hi hplan heq
          have hpred := (List.mem_filter.mp hx).2
          simp at hpred
          exact hpred i hi hplan heq.symm
      · simp
  · unfold IssueService.delete_issue
    split
    · simp
    · split
      · intro _
        simp only [Database.deleteIssueRow]
        refine ⟨?_, ?_, ?_⟩
        · intro i hi
          have := (List.mem_filter.mp hi).2
          simpa using this
        · intro k hk
          have := (List.mem_filter.mp hk).2
          simpa using this
        · intro x hx
          have := (List.mem_filter.mp hx).2
          simpa using this
      · simp

/-- Witness for C2: deleting plan 1 of the populated example database
succeeds, and issue 1 of that plan is gone afterwards. -/
theorem cascade_delete_spec_witness :
    ({ id := 1, plan_id := 1, name := "i1", description := none,
       priority := some 1 } : IssueRow) ∉
      (PlanService.delete_plan exDb 1).db.issues :=
  fun hmem =>
    ((cascade_delete_spec exDb 1 1).1 (by decide)).2.1 _ hmem rfl

/-- Modelled from the spec's words (§4.4): the average KPI progress of an
Issue as the claim states it — the mean of the progress values among
exactly the KPIs whose progress is defined, undefined when no KPI has a
defined progress. Stated for comparison against the code's computation. -/
def specDefinedProgressMean (kpis : List KpiRow) : Option ℚ :=
  let ds := kpis.filterMap KpiRow.progress
  if ds.isEmpty then none else some (ds.sum / (ds.length : ℚ))

/-- One plan, one issue, a single KPI with target 0 (undefined progress). -/
def zeroKpiDb : Database :=
  { plans := [{ id := 1, name := "p", description := none,
                start_date := none, end_date := none }],
    issues := [{ id := 1, plan_id := 1, name := "i1", description := none,
                 priority := none }],
    kpis := [{ id := 1, issue_id := 1, name := "k", description := none,
               target_value := some 0, current_value := some 75, unit := none }],
    initiatives := [],
    next_plan_id := 2, next_issue_id := 2, next_kpi_id := 2,
    next_initiative_id := 1 }

/-- C1 counterexample: on `exDb`, issue 1 has KPIs with progress 50 and
undefined; the summary reports 50 / 2 = 25, not the defined-only mean 50.
On `zeroKpiDb`, the issue's only KPI has undefined progress, yet the
summary reports 0, not undefined. -/
theorem plan_summary_kpi_progress_counterexample :
    ((ReportService.generate_plan_summary exDb 1).1.map
        (fun s => s.issues.map (fun t => t.kpi_progress))) = some [some 25, none]
    ∧ specDefinedProgressMean (exDb.getKpisByIssueId 1) = some 50
    ∧ some (25 : ℚ) ≠ some (50 : ℚ)
    ∧ ((ReportService.generate_plan_summary zeroKpiDb 1).1.map
        (fun s => s.issues.map (fun t => t.kpi_progress))) = some [some 0]
    ∧ specDefinedProgressMean (zeroKpiDb.getKpisByIssueId 1) = none := by
  refine ⟨?_, ?_, by norm_num, ?_, ?_⟩
  · norm_num [ReportService.generate_plan_summary, exDb, Database.getPlanById,
      Database.getIssuesByPlanId, Database.getKpisByIssueId,
      Database.getInitiativesByIssueId, issueSummaryOf, KpiRow.progress,
      kpiProgress, List.insertionSort, List.orderedInsert, issueOrder, kpiOrder,
      initiativeOrder, issueLe, prioLt, List.find?, statusOrDefault,
      List.filterMap_cons, List.filterMap_nil, List.sum_cons, List.sum_nil]
    exact fun h => absurd h (by simp)
  · norm_num [specDefinedProgressMean, exDb, Database.getKpisByIssueId,
      KpiRow.progress, kpiProgress, List.insertionSort, List.orderedInsert,
      kpiOrder, List.filterMap_cons, List.filterMap_nil, List.sum_cons,
      List.sum_nil]
  · norm_num [ReportService.generate_plan_summary, zeroKpiDb, Database.getPlanById,
      Database.getIssuesByPlanId, Database.getKpisByIssueId,
      Database.getInitiativesByIssueId, issueSummaryOf, KpiRow.progress,
      kpiProgress, List.insertionSort, List.orderedInsert, issueOrder, kpiOrder,
      initiativeOrder, issueLe, prioLt, List.find?, statusOrDefault,
      List.filterMap_cons, List.filterMap_nil, List.sum_cons, List.sum_nil]
  · norm_num [specDefinedProgressMean, zeroKpiDb, Database.getKpisByIssueId,
      KpiRow.progress, kpiProgress, List.insertionSort, List.orderedInsert,
      kpiOrder, List.filterMap_cons, List.filterMap_nil, List.sum_cons,
      List.sum_nil]

/-- C1 (amended): in every generated plan summary, an issue's reported
average KPI progress is the sum of the defined progress values divided by
the total number of the issue's KPIs (undefined ones silently contribute
0), and it is undefined exactly when the issue has no KPIs at all — not
when it merely has no KPI with defined progress. -/
theorem plan_summary_kpi_progress_spec (db : Database) (pid : Nat) (ps : PlanSummary)
    (h : (ReportService.generate_plan_summary db pid).1 = some ps) :
    ∀ isum ∈ ps.issues,
      isum.kpi_progress =
        (if (db.getKpisByIssueId isum.issue.id).isEmpty then none
         else some
           (((db.getKpisByIssueId isum.issue.id).filterMap KpiRow.progress).sum /
             ((db.getKpisByIssueId isum.issue.id).length : ℚ))) := by
  intro isum hmem
  unfold ReportService.generate_plan_summary at h
  split at h
  · simp at h
  · simp only [Option.some.injEq] at h
    rw [← h] at hmem
    simp only at hmem
    obtain ⟨i, hi, heq⟩ := List.mem_map.mp hmem
    rw [← heq]
    simp [issueSummaryOf]

/-- Witness for C1's amended theorem on `zeroKpiDb`: the single issue's
reported progress is 0/1 = 0 as the formula states. -/
theorem plan_summary_kpi_progress_spec_witness :
    (issueSummaryOf
        { id := 1, plan_id := 1, name := "i1", description := none, priority := none }
        (zeroKpiDb.getKpisByIssueId 1) (zeroKpiDb.getInitiativesByIssueId 1)).kpi_progress =
      (if (zeroKpiDb.getKpisByIssueId 1).isEmpty then none
       else some
         (((zeroKpiDb.getKpisByIssueId 1).filterMap KpiRow.progress).sum /
           ((zeroKpiDb.getKpisByIssueId 1).length : ℚ))) := by
  have h := plan_summary_kpi_progress_spec zeroKpiDb 1
    { plan := { id := 1, name := "p", description := none,
                start_date := none, end_date := none },
      issue_count := 1,
      issues := [issueSummaryOf
        { id := 1, plan_id := 1, name := "i1", description := none, priority := none }
        (zeroKpiDb.getKpisByIssueId 1) (zeroKpiDb.getInitiativesByIssueId 1)],
      kpi_count := (zeroKpiDb.getKpisByIssueId 1).length,
      initiative_count := (zeroKpiDb.getInitiativesByIssueId 1).length,
      total_budget := ((zeroKpiDb.getInitiativesByIssueId 1).map
        (fun x => x.budget.getD 0)).sum }
    (by
      unfold ReportService.generate_plan_summary
      norm_num [zeroKpiDb, Database.getPlanById, Database.getIssuesByPlanId,
        Database.getInitiativesByIssueId, List.find?, List.insertionSort,
        List.orderedInsert, issueOrder, issueLe, prioLt, initiativeOrder,
        statusOrDefault, issueSummaryOf])
  exact h _ (List.mem_singleton.mpr rfl)

/-- `incrCount` succeeds exactly on the keys of the counter map. -/
theorem incrCount_isSome_iff (counts : List (String × Nat)) (s : String) :
    (incrCount counts s).isSome = true ↔ s ∈ counts.map Prod.fst := by
  unfold incrCount
  by_cases h : counts.any (fun p => p.1 == s) = true
  · simp only [h, if_pos]
    simp only [Option.isSome_some, true_iff]
    obtain ⟨p, hp, hps⟩ := List.any_eq_true.mp h
    exact List.mem_map.mpr ⟨p, hp, by simpa using hps⟩
  · simp only [h, if_neg, Option.isSome_none]
    constructor
    · intro hfalse
      exact absurd hfalse (by simp)
    · intro hmem
      exfalso
      obtain ⟨p, hp, hps⟩ := List.mem_map.mp hmem
      exact h (List.any_eq_true.mpr ⟨p, hp, by simp [hps]⟩)

/-- `incrCount` preserves the key list of the counter map. -/
theorem incrCount_keys (counts : List (String × Nat)) (s : String)
    (c' : List (String × Nat)) (h : incrCount counts s = some c') :
    c'.map Prod.fst = counts.map Prod.fst := by
  unfold incrCount at h
  split at h
  · cases h
    rw [List.map_map]
    apply List.map_congr_left
    intro p hp
    by_cases hps : p.1 = s <;> simp [hps]
  · exact absurd h (by simp)

/-- The status-count loop succeeds exactly when every status it meets is a
key of the counter map. -/
theorem initiativeLoop_ok_iff (xs : List InitiativeRow) (acc : InitAcc) :
    (∃ acc', initiativeLoop acc xs = .ok acc') ↔
      ∀ x ∈ xs, x.status ∈ acc.counts.map Prod.fst := by
  induction xs generalizing acc with
  | nil => simp [initiativeLoop]
  | cons x rest ih =>
    unfold initiativeLoop
    cases hc : incrCount acc.counts x.status with
    | none =>
      constructor
      · intro ⟨acc', hacc⟩
        exact absurd hacc (by simp)
      · intro hall
        exfalso
        have hx := hall x (List.mem_cons_self x rest)
        have := (incrCount_isSome_iff acc.counts x.status).mpr hx
        rw [hc] at this
        exact absurd this (by simp)
    | some c' =>
      have hkeys := incrCount_keys acc.counts x.status c' hc
      constructor
      · intro ⟨acc', hacc⟩
        intro y hy
        rcases List.mem_cons.mp hy with rfl | hyrest
        · exact (incrCount_isSome_iff acc.counts y.status).mp (by simp [hc])
        · have := (ih _).mp ⟨acc', hacc⟩ y hyrest
          rw [hkeys] at this
          exact this
      · intro hall
        apply (ih _).mpr
        intro y hy
        rw [hkeys]
        exact hall y (List.mem_cons_of_mem x hy)

/-- A status among the five valid ones is non-empty, so the `from_dict`
normalisation keeps it. -/
theorem statusOrDefault_of_valid (s : String) (h : s ∈ VALID_STATUSES) :
    statusOrDefault (some s) = s := by
  have hne : s ≠ "" := by
    simp only [VALID_STATUSES, List.mem_cons, List.not_mem_nil, or_false] at h
    rcases h with rfl | rfl | rfl | rfl | rfl <;> decide
  simp [statusOrDefault, hne]

/-- A stored issue of the plan appears in the `get_by_plan_id` result. -/
theorem mem_getIssuesByPlanId (db : Database) (pid : Nat) (i : IssueRow)
    (hi : i ∈ db.issues) (hp : i.plan_id = pid) : i ∈ db.getIssuesByPlanId pid := by
  unfold Database.getIssuesByPlanId
  exact (List.perm_insertionSort issueOrder _).mem_iff.mpr
    (List.mem_filter.mpr ⟨hi, by simp [hp]⟩)

/-- Conversely, a fetched issue is a stored issue of the plan. -/
theorem of_mem_getIssuesByPlanId (db : Database) (pid : Nat) (i : IssueRow)
    (h : i ∈ db.getIssuesByPlanId pid) : i ∈ db.issues ∧ i.plan_id = pid := by
  unfold Database.getIssuesByPlanId at h
  have := (List.perm_insertionSort issueOrder _).mem_iff.mp h
  have hf := List.mem_filter.mp this
  exact ⟨hf.1, by simpa using hf.2⟩

/-- A stored initiative row of an issue appears (status-normalised) in the
`get_by_issue_id` result. -/
theorem mem_getInitiativesByIssueId (db : Database) (iid : Nat) (x : InitiativeRow)
    (hx : x ∈ db.initiatives) (hid : x.issue_id = iid) :
    { x with status := statusOrDefault (some x.status) } ∈
      db.getInitiativesByIssueId iid := by
  unfold Database.getInitiativesByIssueId
  refine List.mem_map.mpr ⟨x, ?_, rfl⟩
  exact (List.perm_insertionSort initiativeOrder _).mem_iff.mpr
    (List.mem_filter.mpr ⟨hx, by simp [hid]⟩)

/-- Conversely, a fetched initiative is the normalisation of a stored row
of the issue. -/
theorem of_mem_getInitiativesByIssueId (db : Database) (iid : Nat)
    (y : InitiativeRow) (h : y ∈ db.getInitiativesByIssueId iid) :
    ∃ x ∈ db.initiatives, x.issue_id = iid ∧
      y = { x with status := statusOrDefault (some x.status) } := by
  unfold Database.getInitiativesByIssueId at h
  obtain ⟨x, hxs, hyx⟩ := List.mem_map.mp h
  have := (List.perm_insertionSort initiativeOrder _).mem_iff.mp hxs
  have hf := List.mem_filter.mp this
  exact ⟨x, hf.1, by simpa using hf.2, hyx.symm⟩

/-- C10: with the plan present, `generate_initiative_summary` raises an
uncaught `KeyError` (the `.error` side of the embedding) exactly when some
stored initiative row under the plan carries a non-empty status outside
the five valid values; when every stored status under the plan is valid,
the status-count branch never fails and the call returns a pair. -/
theorem initiative_summary_exception_spec (db : Database) (pid : Nat) :
    ((∃ plan, db.getPlanById pid = some plan) →
      (∃ i ∈ db.issues, i.plan_id = pid ∧ ∃ x ∈ db.initiatives,
          x.issue_id = i.id ∧ x.status ≠ "" ∧ x.status ∉ VALID_STATUSES) →
      ∃ e, ReportService.generate_initiative_summary db pid = .error e)
    ∧ ((∀ i ∈ db.issues, i.plan_id = pid → ∀ x ∈ db.initiatives,
          x.issue_id = i.id → x.status ∈ VALID_STATUSES) →
      ∃ r, ReportService.generate_initiative_summary db pid = .ok r) := by
  have hkeys : ((VALID_STATUSES.map (fun s => (s, 0))).map Prod.fst) = VALID_STATUSES := by
    decide
  constructor
  · rintro ⟨plan, hplan⟩ ⟨i, hi, hip, x, hx, hxi, hne, hnv⟩
    unfold ReportService.generate_initiative_summary
    split
    · rename_i hnone
      rw [hnone] at hplan
      exact Option.noConfusion hplan
    rename_i plan' hplan'
    cases hloop : initiativeLoop ⟨0, 0, VALID_STATUSES.map (fun s => (s, 0)), []⟩
        ((db.getIssuesByPlanId pid).flatMap
          (fun issue => db.getInitiativesByIssueId issue.id)) with
    | error e => exact ⟨e, rfl⟩
    | ok acc =>
      exfalso
      have hall := (initiativeLoop_ok_iff _ _).mp ⟨acc, hloop⟩
      have hmem : ({ x with status := statusOrDefault (some x.status) } : InitiativeRow) ∈
          (db.getIssuesByPlanId pid).flatMap
            (fun issue => db.getInitiativesByIssueId issue.id) :=
        List.mem_flatMap.mpr ⟨i, mem_getIssuesByPlanId db pid i hi hip,
          mem_getInitiativesByIssueId db i.id x hx hxi⟩
      have := hall _ hmem
      rw [hkeys] at this
      simp only [statusOrDefault, if_neg hne] at this
      exact hnv this
  · intro hvalid
    unfold ReportService.generate_initiative_summary
    split
    · exact ⟨(none, some (.planNotFound pid)), rfl⟩
    · rename_i plan hplan
      cases hloop : initiativeLoop ⟨0, 0, VALID_STATUSES.map (fun s => (s, 0)), []⟩
          ((db.getIssuesByPlanId pid).flatMap
            (fun issue => db.getInitiativesByIssueId issue.id)) with
      | ok acc => exact ⟨_, rfl⟩
      | error e =>
        exfalso
        have hforall : ∀ y ∈ (db.getIssuesByPlanId pid).flatMap
            (fun issue => db.getInitiativesByIssueId issue.id),
            y.status ∈ ((VALID_STATUSES.map (fun s => (s, 0))).map Prod.fst) := by
          intro y hy
          rw [hkeys]
          obtain ⟨i, hiMem, hyFetch⟩ := List.mem_flatMap.mp hy
          obtain ⟨hiStored, hiPlan⟩ := of_mem_getIssuesByPlanId db pid i hiMem
          obtain ⟨x, hxStored, hxIssue, hyx⟩ :=
            of_mem_getInitiativesByIssueId db i.id y hyFetch
          have hxValid := hvalid i hiStored hiPlan x hxStored hxIssue
          rw [hyx]
          simpa [statusOrDefault_of_valid x.status hxValid] using hxValid
        obtain ⟨acc', hacc⟩ := (initiativeLoop_ok_iff
          ((db.getIssuesByPlanId pid).flatMap
            (fun issue => db.getInitiativesByIssueId issue.id))
          ⟨0, 0, VALID_STATUSES.map (fun s => (s, 0)), []⟩).mpr hforall
        rw [hloop] at hacc
        exact absurd hacc (by simp)

/-- Witness for C10: on a database whose only initiative has the invalid
status "Garbage", the initiative summary for plan 1 raises, while on
`exDb` (all statuses valid) it returns a pair. -/
theorem initiative_summary_exception_spec_witness :
    (∃ e, ReportService.generate_initiative_summary
      { plans := [{ id := 1, name := "p", description := none,
                    start_date := none, end_date := none }],
        issues := [{ id := 1, plan_id := 1, name := "i1", description := none,
                     priority := none }],
        kpis := [],
        initiatives := [{ id := 1, issue_id := 1, name := "x1", description := none,
                          status := "Garbage", budget := none,
                          start_date := none, end_date := none }],
        next_plan_id := 2, next_issue_id := 2, next_kpi_id := 1,
        next_initiative_id := 2 } 1 = .error e)
    ∧ (∃ r, ReportService.generate_initiative_summary exDb 1 = .ok r) := by
  constructor
  · exact (initiative_summary_exception_spec
      { plans := [{ id := 1, name := "p", description := none,
                    start_date := none, end_date := none }],
        issues := [{ id := 1, plan_id := 1, name := "i1", description := none,
                     priority := none }],
        kpis := [],
        initiatives := [{ id := 1, issue_id := 1, name := "x1", description := none,
                          status := "Garbage", budget := none,
                          start_date := none, end_date := none }],
        next_plan_id := 2, next_issue_id := 2, next_kpi_id := 1,
        next_initiative_id := 2 } 1).1
      ⟨{ id := 1, name := "p", description := none,
         start_date := none, end_date := none }, by decide⟩
      ⟨{ id := 1, plan_id := 1, name := "i1", description := none,
         priority := none }, by decide, rfl,
       { id := 1, issue_id := 1, name := "x1", description := none,
         status := "Garbage", budget := none, start_date := none,
         end_date := none }, by decide, rfl, by decide, by decide⟩
  · exact (initiative_summary_exception_spec exDb 1).2 (by decide)

/-- Rows whose id is not in the reorder list are left as they were. -/
theorem setPriorities_mem_of_not_mem (ids : List Nat) (issues : List IssueRow)
    (k : Int) (i : Nat) (hni : i ∉ ids) :
    ∀ row ∈ setPriorities issues ids k, row.id = i → row ∈ issues := by
  induction ids generalizing issues k with
  | nil => exact fun row hrow _ => hrow
  | cons x rest ih =>
    intro row hrow hid
    have hnx : i ≠ x := fun h => hni (h ▸ List.mem_cons_self x rest)
    have hnrest : i ∉ rest := fun h => hni (List.mem_cons_of_mem x h)
    have hmem := ih _ (k + 1) hnrest row hrow hid
    obtain ⟨j, hj, hfj⟩ := List.mem_map.mp hmem
    by_cases hjx : (j.id == x) = true
    · exfalso
      rw [if_pos hjx] at hfj
      have : row.id = j.id := by rw [← hfj]
      rw [hid] at this
      exact hnx (this.trans (by simpa using hjx))
    · rw [if_neg hjx] at hfj
      rw [← hfj]
      exact hj

/-- One update pass sets the priority of every row with the given id. -/
theorem updPriority_sets (issues : List IssueRow) (x : Nat) (k : Int) :
    ∀ row ∈ issues.map
        (fun j => if j.id == x then { j with priority := some k } else j),
      row.id = x → row.priority = some k := by
  intro row hrow hid
  obtain ⟨j, hj, hfj⟩ := List.mem_map.mp hrow
  by_cases hjx : (j.id == x) = true
  · rw [if_pos hjx] at hfj
    rw [← hfj]
  · exfalso
    rw [if_neg hjx] at hfj
    rw [← hfj] at hid
    exact hjx (by simp [hid])

/-- Over a duplicate-free id list, the priority loop assigns each listed
id the priority `k + position`. -/
theorem setPriorities_assigns (ids : List Nat) (issues : List IssueRow) (k : Int)
    (hnd : ids.Nodup) :
    ∀ idx (h : idx < ids.length),
      ∀ row ∈ setPriorities issues ids k,
        row.id = ids.get ⟨idx, h⟩ → row.priority = some (k + idx) := by
  induction ids generalizing issues k with
  | nil => intro idx h; exact absurd h (by simp)
  | cons x rest ih =>
    have hx : x ∉ rest := (List.nodup_cons.mp hnd).1
    have hrest : rest.Nodup := (List.nodup_cons.mp hnd).2
    intro idx h row hrow hid
    cases idx with
    | zero =>
      simp only [List.get] at hid
      have hmem := setPriorities_mem_of_not_mem rest _ (k + 1) x hx row hrow hid
      have := updPriority_sets issues x k row hmem hid
      simpa using this
    | succ n =>
      have h' : n < rest.length := by
        simpa using h
      have := ih _ (k + 1) hrest n h' row hrow (by simpa [List.get] using hid)
      rw [this]
      congr 1
      push_cast
      ring

/-- C6: `reorder_priorities` rejects (writing nothing) when some listed id
is not an issue of the plan; otherwise (plan present, every listed id an
issue of the plan) it succeeds and assigns each listed issue — the list
being duplicate-free so that "its position" is well defined — the priority
equal to its 1-based position in the list. -/
theorem reorder_priorities_spec (db : Database) (pid : Nat) (ids : List Nat) :
    ((∃ x ∈ ids, x ∉ (db.getIssuesByPlanId pid).map (fun i => i.id)) →
      (IssueService.reorder_priorities db pid ids).err ≠ none
      ∧ (IssueService.reorder_priorities db pid ids).db = db)
    ∧ ((db.getPlanById pid).isSome = true →
      (∀ x ∈ ids, x ∈ (db.getIssuesByPlanId pid).map (fun i => i.id)) →
      (IssueService.reorder_priorities db pid ids).ok = true
      ∧ (ids.Nodup → ∀ idx (h : idx < ids.length),
          ∀ row ∈ (IssueService.reorder_priorities db pid ids).db.issues,
            row.id = ids.get ⟨idx, h⟩ →
              row.priority = some (1 + (idx : Int)))) := by
  constructor
  · rintro ⟨x, hx, hnx⟩
    have herr : (IssueService.reorder_priorities db pid ids).err ≠ none := by
      unfold IssueService.reorder_priorities
      split
      · simp
      · have hfind : (ids.find? (fun y =>
            !((db.getIssuesByPlanId pid).map (fun i => i.id)).contains y)).isSome = true := by
          rw [List.find?_isSome]
          exact ⟨x, hx, by simpa using hnx⟩
        obtain ⟨bad, hbad⟩ := Option.isSome_iff_exists.mp hfind
        rw [hbad]
        simp
    exact ⟨herr, reorder_priorities_reject_unchanged db pid ids herr⟩
  · intro hplan hall
    have hfind : ids.find? (fun y =>
        !((db.getIssuesByPlanId pid).map (fun i => i.id)).contains y) = none := by
      rw [List.find?_eq_none]
      intro y hy
      simpa using hall y hy
    obtain ⟨plan, hp⟩ := Option.isSome_iff_exists.mp hplan
    have hred : IssueService.reorder_priorities db pid ids =
        ⟨{ db with issues := setPriorities db.issues ids 1 }, true, none⟩ := by
      unfold IssueService.reorder_priorities
      rw [hp, hfind]
    constructor
    · rw [hred]
    · intro hnd idx h row hrow hid
      rw [hred] at hrow
      have := setPriorities_assigns ids db.issues 1 hnd idx h row hrow hid
      simpa using this

/-- Witness for C6 at the spec scenario: reordering [2, 1] on `exDb`
(plan 1 with issues {1, 2}) succeeds, and the row of issue 2 in the
resulting state carries priority 1. -/
theorem reorder_priorities_spec_witness :
    (IssueService.reorder_priorities exDb 1 [2, 1]).ok = true
    ∧ ({ id := 2, plan_id := 1, name := "i2", description := none,
          priority := some 1 } : IssueRow).priority = some 1 := by
  have h := (reorder_priorities_spec exDb 1 [2, 1]).2 (by decide) (by decide)
  refine ⟨h.1, ?_⟩
  have h2 := h.2 (by decide) 0 (by decide)
    { id := 2, plan_id := 1, name := "i2", description := none,
      priority := some 1 } (by decide) (by decide)
  exact h2

/-- `prioLt` is transitive (NULLs-first strict order on the priority
column). -/
theorem prioLt_trans (a b c : Option Int) (h1 : prioLt a b = true)
    (h2 : prioLt b c = true) : prioLt a c = true := by
  cases a <;> cases b <;> cases c <;> simp [prioLt] at * <;> omega

/-- `prioLt` is irreflexive. -/
theorem prioLt_irrefl (a : Option Int) : prioLt a a = false := by
  cases a <;> simp [prioLt]

/-- `prioLt` is total on distinct priorities. -/
theorem prioLt_of_ne (a b : Option Int) (h : a ≠ b) :
    prioLt a b = true ∨ prioLt b a = true := by
  cases a <;> cases b <;> simp [prioLt] at *
  omega

instance : IsTotal IssueRow issueOrder := by
  constructor
  intro a b
  unfold issueOrder issueLe
  by_cases h : a.priority = b.priority
  · simp [h]
    omega
  · rcases prioLt_of_ne a.priority b.priority h with hl | hl
    · left
      simp [h, hl]
    · right
      simp [Ne.symm h, hl]

instance : IsTrans IssueRow issueOrder := by
  constructor
  intro a b c h1 h2
  unfold issueOrder issueLe at *
  by_cases hab : a.priority = b.priority <;> by_cases hbc : b.priority = c.priority
  · simp only [hab, hbc, if_pos rfl] at *
    simp at *
    omega
  · rw [if_pos hab] at h1
    rw [if_neg hbc] at h2
    rw [if_neg (hab ▸ hbc), hab]
    exact h2
  · rw [if_neg hab] at h1
    rw [if_pos hbc] at h2
    rw [if_neg (fun h => hab (h.trans hbc.symm)), ← hbc]
    exact h1
  · rw [if_neg hab] at h1
    rw [if_neg hbc] at h2
    have hac := prioLt_trans _ _ _ h1 h2
    have hne : a.priority ≠ c.priority := by
      intro h
      rw [h] at hac
      rw [prioLt_irrefl c.priority] at hac
      exact Bool.false_ne_true hac
    rw [if_neg hne]
    exact hac

/-- Two comparable-both-ways issue rows share an id. -/
theorem issueOrder_antisymm_id (a b : IssueRow) (h1 : issueOrder a b)
    (h2 : issueOrder b a) : a.id = b.id := by
  unfold issueOrder issueLe at h1 h2
  by_cases h : a.priority = b.priority
  · rw [if_pos h] at h1
    rw [if_pos h.symm] at h2
    simp at h1 h2
    omega
  · exfalso
    rw [if_neg h] at h1
    rw [if_neg (Ne.symm h)] at h2
    have := prioLt_trans _ _ _ h1 h2
    rw [prioLt_irrefl a.priority] at this
    exact Bool.false_ne_true this

instance : IsTotal KpiRow kpiOrder := by
  constructor
  intro a b
  unfold kpiOrder
  omega

instance : IsTrans KpiRow kpiOrder := by
  constructor
  intro a b c h1 h2
  unfold kpiOrder at *
  omega

instance : IsTotal InitiativeRow initiativeOrder := by
  constructor
  intro a b
  unfold initiativeOrder
  omega

instance : IsTrans InitiativeRow initiativeOrder := by
  constructor
  intro a b c h1 h2
  unfold initiativeOrder at *
  omega

/-- Two sorted permutations of each other are equal when the sort key is
antisymmetric up to a projection that is duplicate-free on the list: the
unique-result property of `ORDER BY` with a unique tie-break column. -/
theorem eq_of_perm_of_sorted_of_nodup_key {α : Type} (r : α → α → Prop)
    (f : α → Nat) (hasym : ∀ a b, r a b → r b a → f a = f b)
    (l1 l2 : List α) (hperm : l1.Perm l2) (hs1 : l1.Sorted r)
    (hs2 : l2.Sorted r) (hnd : (l1.map f).Nodup) : l1 = l2 := by
  have hanti : IsAntisymm α (fun a b => r a b ∧ f a ≠ f b) :=
    ⟨fun a b h1 h2 => absurd (hasym a b h1.1 h2.1) h1.2⟩
  have hpw1 : l1.Pairwise (fun a b => f a ≠ f b) := List.pairwise_map.mp hnd
  have hnd2 : (l2.map f).Nodup := (hperm.map f).nodup_iff.mp hnd
  have hpw2 : l2.Pairwise (fun a b => f a ≠ f b) := List.pairwise_map.mp hnd2
  exact @List.eq_of_perm_of_sorted α (fun a b => r a b ∧ f a ≠ f b) hanti l1 l2
    hperm (hs1.and hpw1) (hs2.and hpw2)

/-- C7: `get_by_plan_id` returns exactly the plan's issues sorted by
(priority ascending, NULLs first, id ascending); `get_by_issue_id` returns
exactly the issue's KPIs / (normalised) initiatives sorted by id
ascending; and — ids being unique, as the primary key guarantees — the
results are independent of the insertion order of the stored rows. -/
theorem query_ordering_spec (db db2 : Database) (pid iid : Nat) :
    ((db.getIssuesByPlanId pid).Perm
        (db.issues.filter (fun i => i.plan_id == pid))
      ∧ (db.getIssuesByPlanId pid).Sorted issueOrder)
    ∧ ((db.getKpisByIssueId iid).Perm
        (db.kpis.filter (fun k => k.issue_id == iid))
      ∧ (db.getKpisByIssueId iid).Sorted kpiOrder)
    ∧ ((db.getInitiativesByIssueId iid).Perm
        ((db.initiatives.filter (fun x => x.issue_id == iid)).map
          (fun x => { x with status := statusOrDefault (some x.status) }))
      ∧ (db.getInitiativesByIssueId iid).Sorted initiativeOrder)
    ∧ (db2.issues.Perm db.issues → (db.issues.map IssueRow.id).Nodup →
        db2.getIssuesByPlanId pid = db.getIssuesByPlanId pid)
    ∧ (db2.kpis.Perm db.kpis → (db.kpis.map KpiRow.id).Nodup →
        db2.getKpisByIssueId iid = db.getKpisByIssueId iid)
    ∧ (db2.initiatives.Perm db.initiatives →
        (db.initiatives.map InitiativeRow.id).Nodup →
        db2.getInitiativesByIssueId iid = db.getInitiativesByIssueId iid) := by
  refine ⟨⟨?_, ?_⟩, ⟨?_, ?_⟩, ⟨?_, ?_⟩, ?_, ?_, ?_⟩
  · exact List.perm_insertionSort issueOrder _
  · exact List.sorted_insertionSort issueOrder _
  · exact List.perm_insertionSort kpiOrder _
  · exact List.sorted_insertionSort kpiOrder _
  · exact (List.perm_insertionSort initiativeOrder _).map _
  · exact List.Pairwise.map _ (fun a b h => h)
      (List.sorted_insertionSort initiativeOrder _)
  · intro hperm hnd
    have hfilter := hperm.filter (fun i => i.plan_id == pid)
    have hperm2 : (db2.getIssuesByPlanId pid).Perm
        (db.issues.filter (fun i => i.plan_id == pid)) :=
      (List.perm_insertionSort issueOrder _).trans hfilter
    have hperm' : (db2.getIssuesByPlanId pid).Perm (db.getIssuesByPlanId pid) :=
      hperm2.trans (List.perm_insertionSort issueOrder _).symm
    have hndFilter : ((db.issues.filter (fun i => i.plan_id == pid)).map
        IssueRow.id).Nodup :=
      ((List.filter_sublist db.issues).map IssueRow.id).nodup hnd
    have hnd1 : ((db2.getIssuesByPlanId pid).map IssueRow.id).Nodup :=
      (hperm2.map IssueRow.id).nodup_iff.mpr hndFilter
    exact eq_of_perm_of_sorted_of_nodup_key issueOrder IssueRow.id
      issueOrder_antisymm_id _ _ hperm'
      (List.sorted_insertionSort issueOrder _)
      (List.sorted_insertionSort issueOrder _) hnd1
  · intro hperm hnd
    have hfilter := hperm.filter (fun k => k.issue_id == iid)
    have hperm2 : (db2.getKpisByIssueId iid).Perm
        (db.kpis.filter (fun k => k.issue_id == iid)) :=
      (List.perm_insertionSort kpiOrder _).trans hfilter
    have hperm' : (db2.getKpisByIssueId iid).Perm (db.getKpisByIssueId iid) :=
      hperm2.trans (List.perm_insertionSort kpiOrder _).symm
    have hndFilter : ((db.kpis.filter (fun k => k.issue_id == iid)).map
        KpiRow.id).Nodup :=
      ((List.filter_sublist db.kpis).map KpiRow.id).nodup hnd
    have hnd1 : ((db2.getKpisByIssueId iid).map KpiRow.id).Nodup :=
      (hperm2.map KpiRow.id).nodup_iff.mpr hndFilter
    exact eq_of_perm_of_sorted_of_nodup_key kpiOrder KpiRow.id
      (fun a b h1 h2 => Nat.le_antisymm h1 h2) _ _ hperm'
      (List.sorted_insertionSort kpiOrder _)
      (List.sorted_insertionSort kpiOrder _) hnd1
  · intro hperm hnd
    have hfilter := hperm.filter (fun x => x.issue_id == iid)
    have hperm2 : (List.insertionSort initiativeOrder
        (db2.initiatives.filter (fun x => x.issue_id == iid))).Perm
        (db.initiatives.filter (fun x => x.issue_id == iid)) :=
      (List.perm_insertionSort initiativeOrder _).trans hfilter
    have hperm' : (List.insertionSort initiativeOrder
        (db2.initiatives.filter (fun x => x.issue_id == iid))).Perm
        (List.insertionSort initiativeOrder
          (db.initiatives.filter (fun x => x.issue_id == iid))) :=
      hperm2.trans (List.perm_insertionSort initiativeOrder _).symm
    have hndFilter : ((db.initiatives.filter (fun x => x.issue_id == iid)).map
        InitiativeRow.id).Nodup :=
      ((List.filter_sublist db.initiatives).map InitiativeRow.id).nodup hnd
    have hnd1 : ((List.insertionSort initiativeOrder
        (db2.initiatives.filter (fun x => x.issue_id == iid))).map
          InitiativeRow.id).Nodup :=
      (hperm2.map InitiativeRow.id).nodup_iff.mpr hndFilter
    have hsorteq := eq_of_perm_of_sorted_of_nodup_key initiativeOrder
      InitiativeRow.id (fun a b h1 h2 => Nat.le_antisymm h1 h2) _ _ hperm'
      (List.sorted_insertionSort initiativeOrder _)
      (List.sorted_insertionSort initiativeOrder _) hnd1
    unfold Database.getInitiativesByIssueId
    rw [hsorteq]

/-- Witness for C7: on `exDb` with its two issues stored in the opposite
order, `get_by_plan_id` returns the same sorted result. -/
theorem query_ordering_spec_witness :
    Database.getIssuesByPlanId
      { exDb with issues :=
        [{ id := 2, plan_id := 1, name := "i2", description := none,
           priority := some 2 },
         { id := 1, plan_id := 1, name := "i1", description := none,
           priority := some 1 }] } 1 =
      exDb.getIssuesByPlanId 1 := by
  refine (query_ordering_spec exDb
    { exDb with issues :=
      [{ id := 2, plan_id := 1, name := "i2", description := none,
         priority := some 2 },
       { id := 1, plan_id := 1, name := "i1", description := none,
         priority := some 1 }] } 1 1).2.2.2.1 ?_ (by decide)
  exact List.Perm.swap _ _ _
